import Mathlib

/-!
Verification of the QuickBooks synchronization core of this repository.

The definitions below are a shallow embedding of the TypeScript source:
  * `src/backend/src/service/chartOfAccountsService.ts` (invoice sync),
  * `src/backend/src/service/paymentSyncService.ts` (payment sync),
  * the auth service (`src/unnamed/part_014`, `refreshToken` / `getValidAccessToken`),
  * `src/backend/src/middleware/tokenRefreshMiddleware.ts`,
  * `src/backend/src/controller/invoiceSyncController.ts` (batch status codes).

Database state (Prisma) is modelled as explicit lists of rows threaded through
the functions; remote HTTP calls are modelled by an outcome parameter (the
response the remote platform would give on that call); clock reads are a `now`
parameter in epoch milliseconds.  Monetary amounts are integers in the same
numeric unit the source's `number` fields use.  JavaScript string truthiness
(`s ||`) is modelled via emptiness checks on `String` / `Option String`.
-/

namespace QBOSync

/-- Prisma enum `SyncStatus`. -/
inductive SyncStatus
  | PENDING | IN_PROGRESS | SUCCESS | FAILED | RETRY | CANCELLED
  deriving DecidableEq, Repr

/-- Prisma enum `TransactionType`. -/
inductive TransactionType
  | INVOICE | PAYMENT | CUSTOMER | ITEM | ACCOUNT | CHART_OF_ACCOUNT
  deriving DecidableEq, Repr

/-- Prisma enum `SyncOperation`. -/
inductive SyncOperation
  | CREATE | UPDATE | DELETE | READ
  deriving DecidableEq, Repr

/-- One entry of `invoice.lineItems` (JSON column) as the transformer reads it. -/
structure LineItem where
  detailType : String
  itemRef : String
  itemName : String
  quantity : Option Int
  amount : Int
  deriving DecidableEq, Repr

/-- Source `SalesItemLineDetail` part of a QBO invoice line. -/
structure SalesItemDetail where
  itemRefValue : String
  itemRefName : String
  qty : Option Int
  deriving DecidableEq, Repr

/-- Source `QBOInvoiceLineItem` of the wire payload. -/
structure QBOInvoiceLineItem where
  detailType : String
  amount : Int
  salesItemLineDetail : SalesItemDetail
  deriving DecidableEq, Repr

/-- Source `QBOInvoicePayload`: the wire payload built for an invoice. -/
structure QBOInvoicePayload where
  line : List QBOInvoiceLineItem
  customerRefValue : String
  deriving DecidableEq, Repr

/-- A `LinkedTxn` entry of the QBO payment payload / `payment.linkedTransactions`. -/
structure LinkedTxn where
  txnId : String
  txnType : String
  deriving DecidableEq, Repr

/-- Source `QBOPaymentPayload`: the wire payload built for a payment. -/
structure QBOPaymentPayload where
  totalAmt : Int
  customerRefValue : String
  depositToAccountRefValue : Option String
  paymentRefNum : Option String
  txnDate : Option String
  privateNote : Option String
  linkedTxn : Option (List LinkedTxn)
  deriving DecidableEq, Repr

/-- Local `Invoice` row, restricted to the fields the sync core reads/writes. -/
structure Invoice where
  id : String
  docNumber : String
  customerId : String
  qboConnectionId : String
  qboInvoiceId : Option String
  syncToken : Option String
  syncStatus : SyncStatus
  lastSyncedAt : Option Nat
  total : Int
  lineItems : List LineItem
  createdAt : Nat
  deriving DecidableEq, Repr

/-- Local `Payment` row, restricted to the fields the sync core reads/writes. -/
structure Payment where
  id : String
  referenceNumber : Option String
  invoiceId : Option String
  qboConnectionId : String
  qboPaymentId : Option String
  qboInvoiceId : Option String
  syncToken : Option String
  syncStatus : SyncStatus
  lastSyncedAt : Option Nat
  amount : Int
  totalAmount : Option Int
  depositToAccountRef : Option String
  paymentDate : Option Nat
  notes : Option String
  linkedTransactions : Option (List LinkedTxn)
  unappliedAmount : Option Int
  createdAt : Nat
  deriving DecidableEq, Repr

/-- Source `QBOConnection` row. -/
structure QBOConnection where
  id : String
  realmId : String
  accessToken : String
  refreshToken : String
  expiresAt : Nat
  refreshExpiresAt : Nat
  isConnected : Bool
  companyName : String
  connectedAt : Nat
  disconnectedAt : Option Nat
  deriving DecidableEq, Repr

/-- Payload values stored in a sync log's request/response JSON columns. -/
inductive LogPayload
  | invoiceReq (p : QBOInvoicePayload)
  | paymentReq (p : QBOPaymentPayload)
  | invoiceResp (qboId syncTok : String)
  | paymentResp (qboId syncTok : String) (unappliedAmt : Int)
  | errorResp (status : Option Nat) (fault : Option (String × String))
  deriving DecidableEq, Repr

/-- Source `SyncLog` row. -/
structure SyncLogRow where
  id : Nat
  transactionType : TransactionType
  systemTransactionId : String
  quickbooksId : Option String
  status : SyncStatus
  operation : SyncOperation
  qboConnectionId : String
  invoiceId : Option String
  paymentId : Option String
  requestPayload : Option LogPayload
  responsePayload : Option LogPayload
  errorMessage : Option String
  errorCode : Option String
  startedAt : Nat
  completedAt : Option Nat
  deriving DecidableEq, Repr

/-- The persistent store the sync core touches, as explicit state.
`nextLogId` / `nextConnNum` model the id generator of the database. -/
structure DB where
  invoices : List Invoice
  payments : List Payment
  connections : List QBOConnection
  syncLogs : List SyncLogRow
  nextLogId : Nat
  nextConnNum : Nat
  deriving DecidableEq, Repr

/-- JavaScript truthiness of a nullable string: `null`/`undefined` and `""`
are falsy. -/
def strTruthy : Option String → Option String
  | some s => if s = "" then none else some s
  | none => none

/-- Source `a || b` on strings (empty string is falsy). -/
def strOr (s fallback : String) : String :=
  if s = "" then fallback else s

/-!  ## Payload Transformer (invoice)  -/

/-- Source `transformLineItemsToQBO` (chartOfAccountsService.ts): keeps only
`SalesItemLineDetail` items, carrying amount, the item reference and the
quantity when present; every other line (e.g. tax lines) is skipped. -/
def transformLineItemsToQBO : List LineItem → List QBOInvoiceLineItem
  | [] => []
  | item :: rest =>
    if item.detailType = "SalesItemLineDetail" then
      { detailType := "SalesItemLineDetail"
        amount := item.amount
        salesItemLineDetail :=
          { itemRefValue := item.itemRef
            itemRefName := item.itemName
            qty := item.quantity } } :: transformLineItemsToQBO rest
    else
      transformLineItemsToQBO rest

/-- Source `transformInvoiceToQBO`: minimal payload of transformed lines plus the
customer reference. -/
def transformInvoiceToQBO (invoice : Invoice) : QBOInvoicePayload :=
  { line := transformLineItemsToQBO invoice.lineItems
    customerRefValue := invoice.customerId }

/-- Sum of the `Amount` fields of a payload's lines. -/
def payloadLineSum (p : QBOInvoicePayload) : Int :=
  (p.line.map (fun l => l.amount)).sum

/-!  ## Payload Transformer (payment)  -/

/-- Look an invoice up by id (`prisma.invoice.findUnique`). -/
def lookupInvoice (db : DB) (invoiceId : String) : Option Invoice :=
  db.invoices.find? (fun i => i.id = invoiceId)

/-- Look a payment up by id (`prisma.payment.findUnique`). -/
def lookupPayment (db : DB) (paymentId : String) : Option Payment :=
  db.payments.find? (fun p => p.id = paymentId)

/-- Source `payment.paymentDate.toISOString().split('T')[0]`, abstracted: the exact
date rendering is irrelevant to the claims, only that some date string is
produced from the stored timestamp. -/
def formatTxnDate (epochMs : Nat) : String :=
  toString epochMs

/-- Source `transformPaymentToQBO` (paymentSyncService.ts): resolves the linked
invoice's current customer id and remote invoice id live from the store,
defaulting the customer reference to `"1"`; builds the minimal payload and
adds optional fields only when (JS-)truthy; the `LinkedTxn` list prefers the
live remote invoice id, then the stored `linkedTransactions`, then the
payment's own cached `qboInvoiceId`. -/
def transformPaymentToQBO (payment : Payment) (db : DB) : QBOPaymentPayload :=
  let invOpt : Option Invoice :=
    match payment.invoiceId with
    | some iid => lookupInvoice db iid
    | none => none
  let customerRef : String :=
    match invOpt with
    | some inv => strOr inv.customerId "1"
    | none => "1"
  let liveQboInvoiceId : Option String :=
    match invOpt with
    | some inv => strTruthy inv.qboInvoiceId
    | none => none
  let totalAmt : Int :=
    match payment.totalAmount with
    | some t => if t = 0 then payment.amount else t
    | none => payment.amount
  let linkedTxn : Option (List LinkedTxn) :=
    match liveQboInvoiceId with
    | some qid => some [{ txnId := qid, txnType := "Invoice" }]
    | none =>
      match payment.linkedTransactions with
      | some txns => some (txns.map (fun t => { txnId := t.txnId, txnType := t.txnType }))
      | none =>
        match strTruthy payment.qboInvoiceId with
        | some qid => some [{ txnId := qid, txnType := "Invoice" }]
        | none => none
  { totalAmt := totalAmt
    customerRefValue := customerRef
    depositToAccountRefValue := strTruthy payment.depositToAccountRef
    paymentRefNum := strTruthy payment.referenceNumber
    txnDate := payment.paymentDate.map formatTxnDate
    privateNote := strTruthy payment.notes
    linkedTxn := linkedTxn }

/-!  ## Connections and the Sync Audit Log  -/

/-- Source `findOrCreateConnection` (both sync services): find the connection for the
realm; if absent, create one with the placeholder company name, a 1-hour
access expiry and a 101-day refresh expiry; return its id. -/
def findOrCreateConnection (realmId accessToken : String) (now : Nat) (db : DB) :
    String × DB :=
  match db.connections.find? (fun c => c.realmId = realmId) with
  | some c => (c.id, db)
  | none =>
    let cid := "conn-" ++ toString db.nextConnNum
    let c : QBOConnection :=
      { id := cid
        realmId := realmId
        accessToken := accessToken
        refreshToken := ""
        expiresAt := now + 3600 * 1000
        refreshExpiresAt := now + 101 * 24 * 3600 * 1000
        isConnected := true
        companyName := "Company-" ++ realmId
        connectedAt := now
        disconnectedAt := none }
    (cid, { db with connections := db.connections ++ [c], nextConnNum := db.nextConnNum + 1 })

/-- The argument record of `createSyncLog`.  An `Option` field set to `none`
models a TypeScript `undefined` argument. -/
structure CreateSyncLogData where
  transactionType : TransactionType
  systemTransactionId : String
  quickbooksId : Option String
  status : SyncStatus
  operation : SyncOperation
  qboConnectionId : String
  invoiceId : Option String
  paymentId : Option String
  requestPayload : Option LogPayload
  responsePayload : Option LogPayload
  errorMessage : Option String
  errorCode : Option String
  deriving DecidableEq, Repr

/-- The composite upsert key used by `createSyncLog`'s `findFirst`. -/
def logKeyMatches (r : SyncLogRow) (d : CreateSyncLogData) : Bool :=
  r.transactionType = d.transactionType &&
  r.systemTransactionId = d.systemTransactionId &&
  r.operation = d.operation &&
  r.qboConnectionId = d.qboConnectionId

/-- The in-place update of an existing row (`prisma.syncLog.update`).
A `none` in the data is Prisma `undefined`: the stored column is left
unchanged; `quickbooksId`/`requestPayload` additionally use the source's
`data.x || existing.x` fallback, under which an empty-string `quickbooksId`
is falsy and keeps the stored id (a present `requestPayload` object is always
truthy).  `completedAt` is freshly assigned exactly when the written status
is not `IN_PROGRESS`. -/
def applySyncLogUpdate (d : CreateSyncLogData) (now : Nat) (r : SyncLogRow) : SyncLogRow :=
  { r with
    quickbooksId := match strTruthy d.quickbooksId with | some q => some q | none => r.quickbooksId
    status := d.status
    requestPayload := match d.requestPayload with | some p => some p | none => r.requestPayload
    responsePayload := match d.responsePayload with | some p => some p | none => r.responsePayload
    errorMessage := match d.errorMessage with | some m => some m | none => r.errorMessage
    errorCode := match d.errorCode with | some c => some c | none => r.errorCode
    completedAt := if d.status ≠ SyncStatus.IN_PROGRESS then some now else r.completedAt }

/-- The freshly inserted row (`prisma.syncLog.create`) with `startedAt = now`. -/
def newSyncLogRow (d : CreateSyncLogData) (now : Nat) (newId : Nat) : SyncLogRow :=
  { id := newId
    transactionType := d.transactionType
    systemTransactionId := d.systemTransactionId
    quickbooksId := d.quickbooksId
    status := d.status
    operation := d.operation
    qboConnectionId := d.qboConnectionId
    invoiceId := d.invoiceId
    paymentId := d.paymentId
    requestPayload := d.requestPayload
    responsePayload := d.responsePayload
    errorMessage := d.errorMessage
    errorCode := d.errorCode
    startedAt := now
    completedAt := if d.status ≠ SyncStatus.IN_PROGRESS then some now else none }

/-- Source `findFirst` by key then update that row / `create` a new one: modelled as
replacing the first key-matching row in place, appending when none matches. -/
def upsertSyncLogRows (d : CreateSyncLogData) (now : Nat) (newId : Nat) :
    List SyncLogRow → List SyncLogRow
  | [] => [newSyncLogRow d now newId]
  | r :: rest =>
    if logKeyMatches r d then applySyncLogUpdate d now r :: rest
    else r :: upsertSyncLogRows d now newId rest

/-- Source `createSyncLog` (identical in both sync services, apart from the
`invoiceId`/`paymentId` linkage field which is merged here): upsert by the
composite key.  The whole body is wrapped in a `try`/`catch` that only logs,
so a failing persistence attempt (`auditOk = false`) leaves the store
untouched and never propagates an error to the caller. -/
def createSyncLog (d : CreateSyncLogData) (now : Nat) (auditOk : Bool) (db : DB) : DB :=
  if auditOk then
    { db with
      syncLogs := upsertSyncLogRows d now db.nextLogId db.syncLogs
      nextLogId :=
        if db.syncLogs.any (fun r => logKeyMatches r d) then db.nextLogId
        else db.nextLogId + 1 }
  else db

/-!  ## Entity Sync State Machine (single-record sync)  -/

/-- Outcome of the remote invoice-create HTTP call (the response the
remote platform gives): a created entity, a 2xx body carrying a `Fault`,
a 2xx body with neither, or an axios-level failure (with the HTTP status and
parsed fault body when a response exists, `none` status for transport
errors). -/
inductive QBOInvoiceApiOutcome
  | ok (qboId syncTok : String)
  | faultBody (code detail : String)
  | noEntity
  | axiosFailure (message : String) (status : Option Nat) (fault : Option (String × String))
  deriving DecidableEq, Repr

/-- Outcome of the remote payment-create HTTP call; the created payment also
carries `UnappliedAmt`. -/
inductive QBOPaymentApiOutcome
  | ok (qboId syncTok : String) (unappliedAmt : Int)
  | faultBody (code detail : String)
  | noEntity
  | axiosFailure (message : String) (status : Option Nat) (fault : Option (String × String))
  deriving DecidableEq, Repr

/-- A JavaScript exception as the sync services' `catch` blocks classify it:
a plain `Error` or an axios error. -/
inductive ThrownError
  | generic (message : String)
  | axiosErr (message : String) (status : Option Nat) (fault : Option (String × String))
  deriving DecidableEq, Repr

/-- Source `InvoiceSyncResult` returned by `syncInvoiceToQBO`. -/
structure InvoiceSyncResult where
  success : Bool
  qboInvoiceId : Option String
  syncToken : Option String
  message : String
  error : Option String
  deriving DecidableEq, Repr

/-- Source `PaymentSyncResult` returned by `syncPaymentToQBO`. -/
structure PaymentSyncResult where
  success : Bool
  qboPaymentId : Option String
  syncToken : Option String
  message : String
  error : Option String
  deriving DecidableEq, Repr

/-- Source `prisma.invoice.update` by id. -/
def updateInvoice (db : DB) (invoiceId : String) (f : Invoice → Invoice) : DB :=
  { db with invoices := db.invoices.map (fun inv => if inv.id = invoiceId then f inv else inv) }

/-- Source `prisma.payment.update` by id. -/
def updatePayment (db : DB) (paymentId : String) (f : Payment → Payment) : DB :=
  { db with payments := db.payments.map (fun p => if p.id = paymentId then f p else p) }

/-- The `try` body of `syncInvoiceToQBO`.  An error value carries the store as
mutated up to the throw point, since those writes have already persisted. -/
def syncInvoiceBody (invoiceId accessToken realmId : String)
    (remote : QBOInvoiceApiOutcome) (now : Nat) (auditOk : Bool) (db : DB) :
    Except (ThrownError × DB) (InvoiceSyncResult × DB) :=
  let fc := findOrCreateConnection realmId accessToken now db
  let qboConnectionId := fc.1
  let db1 := fc.2
  match lookupInvoice db1 invoiceId with
  | none => .error (.generic ("Invoice with ID " ++ invoiceId ++ " not found"), db1)
  | some invoice =>
    match strTruthy invoice.qboInvoiceId with
    | some qid =>
      .ok ({ success := false
             qboInvoiceId := none
             syncToken := none
             message := "Invoice " ++ invoice.docNumber ++
               " is already synced to QuickBooks (ID: " ++ qid ++ ")"
             error := some "ALREADY_SYNCED" }, db1)
    | none =>
      let qboPayload := transformInvoiceToQBO invoice
      let db2 := updateInvoice db1 invoiceId
        (fun inv => { inv with syncStatus := SyncStatus.IN_PROGRESS })
      let db3 := createSyncLog
        { transactionType := TransactionType.INVOICE
          systemTransactionId := invoiceId
          quickbooksId := none
          status := SyncStatus.IN_PROGRESS
          operation := SyncOperation.CREATE
          qboConnectionId := qboConnectionId
          invoiceId := some invoiceId
          paymentId := none
          requestPayload := some (LogPayload.invoiceReq qboPayload)
          responsePayload := none
          errorMessage := none
          errorCode := none } now auditOk db2
      match remote with
      | .axiosFailure msg status fault => .error (.axiosErr msg status fault, db3)
      | .faultBody code detail =>
        .error (.generic ("QuickBooks API Error: " ++ detail ++ " (Code: " ++ code ++ ")"), db3)
      | .noEntity => .error (.generic "No invoice data returned from QuickBooks", db3)
      | .ok qboId syncTok =>
        let db4 := updateInvoice db3 invoiceId (fun inv =>
          { inv with
            qboInvoiceId := some qboId
            syncToken := some syncTok
            syncStatus := SyncStatus.SUCCESS
            lastSyncedAt := some now })
        let db5 := createSyncLog
          { transactionType := TransactionType.INVOICE
            systemTransactionId := invoiceId
            quickbooksId := some qboId
            status := SyncStatus.SUCCESS
            operation := SyncOperation.CREATE
            qboConnectionId := qboConnectionId
            invoiceId := some invoiceId
            paymentId := none
            requestPayload := some (LogPayload.invoiceReq qboPayload)
            responsePayload := some (LogPayload.invoiceResp qboId syncTok)
            errorMessage := none
            errorCode := none } now auditOk db4
        .ok ({ success := true
               qboInvoiceId := some qboId
               syncToken := some syncTok
               message := "Invoice " ++ invoice.docNumber ++ " synced successfully to QuickBooks"
               error := none }, db5)

/-- The error message/code classification of the sync services' `catch`
blocks. -/
def classifyErrorMessage (e : ThrownError) : String :=
  match e with
  | .generic m => m
  | .axiosErr m _ fault =>
    match fault with
    | some (c, d) => "QuickBooks API Error: " ++ d ++ " (Code: " ++ c ++ ")"
    | none => m

/-- Source `errorCode`: HTTP status for axios errors (or `AXIOS_ERROR` without a
response), `SYNC_ERROR` otherwise. -/
def classifyErrorCode (e : ThrownError) : String :=
  match e with
  | .generic _ => "SYNC_ERROR"
  | .axiosErr _ status _ =>
    match status with
    | some s => toString s
    | none => "AXIOS_ERROR"

/-- Source `error.response?.data` persisted into the failure log for axios errors. -/
def errorResponsePayload (e : ThrownError) : Option LogPayload :=
  match e with
  | .axiosErr _ (some s) fault => some (LogPayload.errorResp (some s) fault)
  | _ => none

/-- The `catch` block of `syncInvoiceToQBO`: mark the invoice `FAILED` with the
attempt time, write a `FAILED` audit row (the inner `try` swallows a missing
invoice, skipping those writes), and return a failure result — never
rethrowing. -/
def handleInvoiceSyncError (invoiceId accessToken realmId : String)
    (e : ThrownError) (now : Nat) (auditOk : Bool) (db : DB) :
    InvoiceSyncResult × DB :=
  let errorMessage := classifyErrorMessage e
  let failRes : InvoiceSyncResult :=
    { success := false
      qboInvoiceId := none
      syncToken := none
      message := "Failed to sync invoice: " ++ errorMessage
      error := some errorMessage }
  match lookupInvoice db invoiceId with
  | none => (failRes, db)
  | some _ =>
    let dbA := updateInvoice db invoiceId (fun inv =>
      { inv with syncStatus := SyncStatus.FAILED, lastSyncedAt := some now })
    let fc := findOrCreateConnection realmId accessToken now dbA
    let qboConnectionId := fc.1
    let dbB := fc.2
    let dbC := createSyncLog
      { transactionType := TransactionType.INVOICE
        systemTransactionId := invoiceId
        quickbooksId := none
        status := SyncStatus.FAILED
        operation := SyncOperation.CREATE
        qboConnectionId := qboConnectionId
        invoiceId := some invoiceId
        paymentId := none
        requestPayload := none
        responsePayload := errorResponsePayload e
        errorMessage := some errorMessage
        errorCode := some (classifyErrorCode e) } now auditOk dbB
    (failRes, dbC)

/-- Source `syncInvoiceToQBO`: the `try` body with its `catch`, always returning a
result object to the caller. -/
def syncInvoiceToQBO (invoiceId accessToken realmId : String)
    (remote : QBOInvoiceApiOutcome) (now : Nat) (auditOk : Bool) (db : DB) :
    InvoiceSyncResult × DB :=
  match syncInvoiceBody invoiceId accessToken realmId remote now auditOk db with
  | .ok r => r
  | .error (e, dbAtThrow) =>
    handleInvoiceSyncError invoiceId accessToken realmId e now auditOk dbAtThrow

/-- The display name a payment is referred to by in messages:
`payment.referenceNumber || paymentId`. -/
def paymentDisplayName (payment : Payment) (paymentId : String) : String :=
  match strTruthy payment.referenceNumber with
  | some r => r
  | none => paymentId

/-- The `try` body of `syncPaymentToQBO`; mirrors `syncInvoiceBody` with the
payment-specific transform and the post-success live re-resolution of the
linked invoice's remote id. -/
def syncPaymentBody (paymentId accessToken realmId : String)
    (remote : QBOPaymentApiOutcome) (now : Nat) (auditOk : Bool) (db : DB) :
    Except (ThrownError × DB) (PaymentSyncResult × DB) :=
  let fc := findOrCreateConnection realmId accessToken now db
  let qboConnectionId := fc.1
  let db1 := fc.2
  match lookupPayment db1 paymentId with
  | none => .error (.generic ("Payment with ID " ++ paymentId ++ " not found"), db1)
  | some payment =>
    match strTruthy payment.qboPaymentId with
    | some qid =>
      .ok ({ success := false
             qboPaymentId := none
             syncToken := none
             message := "Payment " ++ paymentDisplayName payment paymentId ++
               " is already synced to QuickBooks (ID: " ++ qid ++ ")"
             error := some "ALREADY_SYNCED" }, db1)
    | none =>
      let qboPayload := transformPaymentToQBO payment db1
      let db2 := updatePayment db1 paymentId
        (fun p => { p with syncStatus := SyncStatus.IN_PROGRESS })
      let db3 := createSyncLog
        { transactionType := TransactionType.PAYMENT
          systemTransactionId := paymentId
          quickbooksId := none
          status := SyncStatus.IN_PROGRESS
          operation := SyncOperation.CREATE
          qboConnectionId := qboConnectionId
          invoiceId := none
          paymentId := some paymentId
          requestPayload := some (LogPayload.paymentReq qboPayload)
          responsePayload := none
          errorMessage := none
          errorCode := none } now auditOk db2
      match remote with
      | .axiosFailure msg status fault => .error (.axiosErr msg status fault, db3)
      | .faultBody code detail =>
        .error (.generic ("QuickBooks API Error: " ++ detail ++ " (Code: " ++ code ++ ")"), db3)
      | .noEntity => .error (.generic "No payment data returned from QuickBooks", db3)
      | .ok qboId syncTok unappliedAmt =>
        let qboInvoiceIdForUpdate : Option String :=
          match payment.invoiceId with
          | some iid =>
            match lookupInvoice db3 iid with
            | some inv => strTruthy inv.qboInvoiceId
            | none => none
          | none => none
        let db4 := updatePayment db3 paymentId (fun p =>
          { p with
            qboPaymentId := some qboId
            syncToken := some syncTok
            syncStatus := SyncStatus.SUCCESS
            lastSyncedAt := some now
            unappliedAmount := some unappliedAmt
            qboInvoiceId :=
              match qboInvoiceIdForUpdate with
              | some qiid => some qiid
              | none => p.qboInvoiceId
            linkedTransactions :=
              match qboInvoiceIdForUpdate with
              | some qiid => some [{ txnId := qiid, txnType := "Invoice" }]
              | none => p.linkedTransactions })
        let db5 := createSyncLog
          { transactionType := TransactionType.PAYMENT
            systemTransactionId := paymentId
            quickbooksId := some qboId
            status := SyncStatus.SUCCESS
            operation := SyncOperation.CREATE
            qboConnectionId := qboConnectionId
            invoiceId := none
            paymentId := some paymentId
            requestPayload := some (LogPayload.paymentReq qboPayload)
            responsePayload := some (LogPayload.paymentResp qboId syncTok unappliedAmt)
            errorMessage := none
            errorCode := none } now auditOk db4
        .ok ({ success := true
               qboPaymentId := some qboId
               syncToken := some syncTok
               message := "Payment " ++ paymentDisplayName payment paymentId ++
                 " synced successfully to QuickBooks"
               error := none }, db5)

/-- The `catch` block of `syncPaymentToQBO`. -/
def handlePaymentSyncError (paymentId accessToken realmId : String)
    (e : ThrownError) (now : Nat) (auditOk : Bool) (db : DB) :
    PaymentSyncResult × DB :=
  let errorMessage := classifyErrorMessage e
  let failRes : PaymentSyncResult :=
    { success := false
      qboPaymentId := none
      syncToken := none
      message := "Failed to sync payment: " ++ errorMessage
      error := some errorMessage }
  match lookupPayment db paymentId with
  | none => (failRes, db)
  | some _ =>
    let dbA := updatePayment db paymentId (fun p =>
      { p with syncStatus := SyncStatus.FAILED, lastSyncedAt := some now })
    let fc := findOrCreateConnection realmId accessToken now dbA
    let qboConnectionId := fc.1
    let dbB := fc.2
    let dbC := createSyncLog
      { transactionType := TransactionType.PAYMENT
        systemTransactionId := paymentId
        quickbooksId := none
        status := SyncStatus.FAILED
        operation := SyncOperation.CREATE
        qboConnectionId := qboConnectionId
        invoiceId := none
        paymentId := some paymentId
        requestPayload := none
        responsePayload := errorResponsePayload e
        errorMessage := some errorMessage
        errorCode := some (classifyErrorCode e) } now auditOk dbB
    (failRes, dbC)

/-- Source `syncPaymentToQBO`: the `try` body with its `catch`, always returning a
result object. -/
def syncPaymentToQBO (paymentId accessToken realmId : String)
    (remote : QBOPaymentApiOutcome) (now : Nat) (auditOk : Bool) (db : DB) :
    PaymentSyncResult × DB :=
  match syncPaymentBody paymentId accessToken realmId remote now auditOk db with
  | .ok r => r
  | .error (e, dbAtThrow) =>
    handlePaymentSyncError paymentId accessToken realmId e now auditOk dbAtThrow

/-!  ## Batch Orchestrator  -/

/-- Per-item entry of the invoice batch result list. -/
structure InvoiceItemResult where
  invoiceId : String
  docNumber : String
  success : Bool
  qboInvoiceId : Option String
  message : String
  error : Option String
  batchNumber : Nat
  deriving DecidableEq, Repr

/-- Per-item entry of the payment batch result list. -/
structure PaymentItemResult where
  paymentId : String
  referenceNumber : String
  invoiceId : Option String
  success : Bool
  qboPaymentId : Option String
  message : String
  error : Option String
  batchNumber : Nat
  deriving DecidableEq, Repr

/-- Source `BatchSyncResult` of `syncAllInvoicesToQBO`. -/
structure InvoiceBatchSyncResult where
  success : Bool
  totalProcessed : Nat
  successCount : Nat
  failureCount : Nat
  results : List InvoiceItemResult
  message : String
  deriving DecidableEq, Repr

/-- Source `BatchSyncResult` of `syncAllPaymentsToQBO`. -/
structure PaymentBatchSyncResult where
  success : Bool
  totalProcessed : Nat
  successCount : Nat
  failureCount : Nat
  results : List PaymentItemResult
  message : String
  deriving DecidableEq, Repr

/-- The candidate selection of `syncAllInvoicesToQBO`: invoices of the
connection with `syncStatus = PENDING` and no remote id yet, oldest first. -/
def pendingInvoicesFor (db : DB) (qboConnectionId : String) : List Invoice :=
  List.insertionSort (fun a b => a.createdAt ≤ b.createdAt)
    (db.invoices.filter (fun inv =>
      inv.qboConnectionId = qboConnectionId &&
      inv.syncStatus = SyncStatus.PENDING &&
      inv.qboInvoiceId = none))

/-- The candidate selection of `syncAllPaymentsToQBO`. -/
def pendingPaymentsFor (db : DB) (qboConnectionId : String) : List Payment :=
  List.insertionSort (fun a b => a.createdAt ≤ b.createdAt)
    (db.payments.filter (fun p =>
      p.qboConnectionId = qboConnectionId &&
      p.syncStatus = SyncStatus.PENDING &&
      p.qboPaymentId = none))

/-- The `slice`-based batching loop: fixed-size chunks of the candidate
list. -/
def chunkList (n : Nat) : List α → List (List α)
  | [] => []
  | a :: l => ((a :: l).take n) :: chunkList n (l.drop (n - 1))
  termination_by l => l.length
  decreasing_by simp [List.length_drop]; omega

/-- One batch of the invoice orchestrator: run `syncInvoiceToQBO` for each
item, build its per-item result entry and bump the success/failure counters
exactly once per item.  `env` gives the remote platform's response per
invoice id; the bounded-concurrency execution (`pLimit(3)` inside one awaited
`Promise.all`) is serialized here in list order — each item is attempted
exactly once either way. -/
def runInvoiceItems (accessToken realmId : String) (env : String → QBOInvoiceApiOutcome)
    (now : Nat) (auditOk : Bool) (batchNumber : Nat) :
    List Invoice → DB → List InvoiceItemResult × Nat × Nat × DB
  | [], db => ([], 0, 0, db)
  | inv :: rest, db =>
    let sr := syncInvoiceToQBO inv.id accessToken realmId (env inv.id) now auditOk db
    let item : InvoiceItemResult :=
      { invoiceId := inv.id
        docNumber := strOr inv.docNumber ("Invoice-" ++ inv.id)
        success := sr.1.success
        qboInvoiceId := sr.1.qboInvoiceId
        message := sr.1.message
        error := sr.1.error
        batchNumber := batchNumber }
    let restR := runInvoiceItems accessToken realmId env now auditOk batchNumber rest sr.2
    (item :: restR.1,
     (if sr.1.success then restR.2.1 + 1 else restR.2.1),
     (if sr.1.success then restR.2.2.1 else restR.2.2.1 + 1),
     restR.2.2.2)

/-- The batch loop: batches strictly in sequence (the 2-second pacing delay
between batches does not alter any state modelled here). -/
def runInvoiceBatches (accessToken realmId : String) (env : String → QBOInvoiceApiOutcome)
    (now : Nat) (auditOk : Bool) :
    List (List Invoice) → Nat → DB → List InvoiceItemResult × Nat × Nat × DB
  | [], _, db => ([], 0, 0, db)
  | batch :: rest, batchNumber, db =>
    let br := runInvoiceItems accessToken realmId env now auditOk batchNumber batch db
    let rr := runInvoiceBatches accessToken realmId env now auditOk rest (batchNumber + 1) br.2.2.2
    (br.1 ++ rr.1, br.2.1 + rr.2.1, br.2.2.1 + rr.2.2.1, rr.2.2.2)

/-- Source `syncAllInvoicesToQBO`: select candidates, return a successful no-op when
there are none, otherwise process in batches of 10 and aggregate; the
top-level `success` flag is `true` on both return paths. -/
def syncAllInvoicesToQBO (accessToken realmId : String)
    (env : String → QBOInvoiceApiOutcome) (now : Nat) (auditOk : Bool) (db : DB) :
    InvoiceBatchSyncResult × DB :=
  let fc := findOrCreateConnection realmId accessToken now db
  let qboConnectionId := fc.1
  let db1 := fc.2
  let pendingInvoices := pendingInvoicesFor db1 qboConnectionId
  if pendingInvoices.isEmpty then
    ({ success := true
       totalProcessed := 0
       successCount := 0
       failureCount := 0
       results := []
       message := "No pending invoices found to sync" }, db1)
  else
    let batches := chunkList 10 pendingInvoices
    let run := runInvoiceBatches accessToken realmId env now auditOk batches 1 db1
    ({ success := true
       totalProcessed := pendingInvoices.length
       successCount := run.2.1
       failureCount := run.2.2.1
       results := run.1
       message := "Batch sync completed: " ++ toString run.2.1 ++ " successful, " ++
         toString run.2.2.1 ++ " failed out of " ++ toString pendingInvoices.length ++
         " invoices" }, run.2.2.2)

/-- One batch of the payment orchestrator. -/
def runPaymentItems (accessToken realmId : String) (env : String → QBOPaymentApiOutcome)
    (now : Nat) (auditOk : Bool) (batchNumber : Nat) :
    List Payment → DB → List PaymentItemResult × Nat × Nat × DB
  | [], db => ([], 0, 0, db)
  | p :: rest, db =>
    let sr := syncPaymentToQBO p.id accessToken realmId (env p.id) now auditOk db
    let item : PaymentItemResult :=
      { paymentId := p.id
        referenceNumber :=
          match strTruthy p.referenceNumber with
          | some r => r
          | none => "Payment-" ++ p.id
        invoiceId := p.invoiceId
        success := sr.1.success
        qboPaymentId := sr.1.qboPaymentId
        message := sr.1.message
        error := sr.1.error
        batchNumber := batchNumber }
    let restR := runPaymentItems accessToken realmId env now auditOk batchNumber rest sr.2
    (item :: restR.1,
     (if sr.1.success then restR.2.1 + 1 else restR.2.1),
     (if sr.1.success then restR.2.2.1 else restR.2.2.1 + 1),
     restR.2.2.2)

/-- The payment batch loop. -/
def runPaymentBatches (accessToken realmId : String) (env : String → QBOPaymentApiOutcome)
    (now : Nat) (auditOk : Bool) :
    List (List Payment) → Nat → DB → List PaymentItemResult × Nat × Nat × DB
  | [], _, db => ([], 0, 0, db)
  | batch :: rest, batchNumber, db =>
    let br := runPaymentItems accessToken realmId env now auditOk batchNumber batch db
    let rr := runPaymentBatches accessToken realmId env now auditOk rest (batchNumber + 1) br.2.2.2
    (br.1 ++ rr.1, br.2.1 + rr.2.1, br.2.2.1 + rr.2.2.1, rr.2.2.2)

/-- Source `syncAllPaymentsToQBO`. -/
def syncAllPaymentsToQBO (accessToken realmId : String)
    (env : String → QBOPaymentApiOutcome) (now : Nat) (auditOk : Bool) (db : DB) :
    PaymentBatchSyncResult × DB :=
  let fc := findOrCreateConnection realmId accessToken now db
  let qboConnectionId := fc.1
  let db1 := fc.2
  let pendingPayments := pendingPaymentsFor db1 qboConnectionId
  if pendingPayments.isEmpty then
    ({ success := true
       totalProcessed := 0
       successCount := 0
       failureCount := 0
       results := []
       message := "No pending payments found to sync" }, db1)
  else
    let batches := chunkList 10 pendingPayments
    let run := runPaymentBatches accessToken realmId env now auditOk batches 1 db1
    ({ success := true
       totalProcessed := pendingPayments.length
       successCount := run.2.1
       failureCount := run.2.2.1
       results := run.1
       message := "Batch sync completed: " ++ toString run.2.1 ++ " successful, " ++
         toString run.2.2.1 ++ " failed out of " ++ toString pendingPayments.length ++
         " payments" }, run.2.2.2)

/-!  ## Batch sync endpoint status code (invoiceSyncController.ts)  -/

/-- The response-status determination of `syncAllInvoices` in
`invoiceSyncController.ts`: starts at 200 and reclassifies from the
aggregated counts. -/
def batchSyncStatusCode (totalProcessed successCount failureCount : Nat) : Nat :=
  let hasFailures := failureCount > 0
  let hasSuccesses := successCount > 0
  if totalProcessed = 0 then 200
  else if hasSuccesses && !hasFailures then 200
  else if hasSuccesses && hasFailures then 207
  else if !hasSuccesses && hasFailures then 400
  else 200

/-- The batch sync endpoint (service call plus the controller's status
mapping), for a request that passed validation. -/
def syncAllInvoicesEndpoint (accessToken realmId : String)
    (env : String → QBOInvoiceApiOutcome) (now : Nat) (auditOk : Bool) (db : DB) :
    Nat × InvoiceBatchSyncResult × DB :=
  let run := syncAllInvoicesToQBO accessToken realmId env now auditOk db
  (batchSyncStatusCode run.1.totalProcessed run.1.successCount run.1.failureCount,
   run.1, run.2)

/-!  ## Token Lifecycle Manager (auth service and refresh middleware)  -/

/-- The remote token endpoint's refresh response body. A `none` lifetime field
models an absent (or non-numeric) value; QuickBooks may supply the refresh
lifetime as `refresh_token_expires_in` or `x_refresh_token_expires_in`. -/
structure QBOTokenRefreshResponse where
  access_token : String
  refresh_token : String
  expires_in : Nat
  refresh_token_expires_in : Option Int
  x_refresh_token_expires_in : Option Int
  deriving DecidableEq, Repr

/-- Outcome of the remote token-exchange HTTP call. -/
inductive TokenEndpointOutcome
  | ok (resp : QBOTokenRefreshResponse)
  | httpFailure (status : Nat) (message : String)
  | networkFailure (message : String)
  deriving DecidableEq, Repr

/-- The truthy-positive test the source applies to each candidate lifetime
field (`value && !isNaN(value) && value > 0`). -/
def positiveLifetime : Option Int → Option Int
  | some v => if 0 < v then some v else none
  | none => none

/-- Source `REFRESH_TOKEN_LIFETIME_SECONDS`: the documented 100-day fallback. -/
def REFRESH_TOKEN_LIFETIME_SECONDS : Nat := 100 * 24 * 60 * 60

/-- The refresh-expiry computation of `refreshToken`: the explicitly returned
lifetime when positive, trying `refresh_token_expires_in` then
`x_refresh_token_expires_in`, else the 100-day fallback. -/
def computeRefreshExpiresAt (resp : QBOTokenRefreshResponse) (now : Nat) : Int :=
  match positiveLifetime resp.refresh_token_expires_in with
  | some v => (now : Int) + v * 1000
  | none =>
    match positiveLifetime resp.x_refresh_token_expires_in with
    | some v => (now : Int) + v * 1000
    | none => (now : Int) + (REFRESH_TOKEN_LIFETIME_SECONDS : Int) * 1000

/-- Source `validateConnectionId`: rejects an empty string. -/
def validateConnectionId (connectionId : String) : Except String String :=
  if connectionId = "" then Except.error "Connection ID must be a valid string"
  else Except.ok connectionId

/-- Source `refreshToken` (auth service): exchange the stored refresh credential for
new tokens and persist new expiries; error paths throw and leave the store
untouched — in particular they do not flip `isConnected`.  The success value
is the updated connection together with the new store. -/
def refreshTokenService (connectionId : String) (env : TokenEndpointOutcome)
    (now : Nat) (db : DB) : Except String (QBOConnection × DB) :=
  match validateConnectionId connectionId with
  | .error m => .error ("Token refresh failed: " ++ m)
  | .ok validConnectionId =>
    match db.connections.find? (fun c => c.id = validConnectionId) with
    | none => .error "Token refresh failed: Connection not found"
    | some connection =>
      if !connection.isConnected then
        .error "Token refresh failed: Connection is not active"
      else
        match env with
        | .httpFailure 400 _ => .error "Invalid or expired refresh token"
        | .httpFailure 401 _ => .error "Authentication failed while refreshing token"
        | .httpFailure _ m => .error ("Token refresh failed: " ++ m)
        | .networkFailure m => .error ("Token refresh failed: " ++ m)
        | .ok resp =>
          let expiresAt := now + resp.expires_in * 1000
          let refreshExpiresAt := (computeRefreshExpiresAt resp now).toNat
          let updated : QBOConnection :=
            { connection with
              accessToken := resp.access_token
              refreshToken := resp.refresh_token
              expiresAt := expiresAt
              refreshExpiresAt := refreshExpiresAt }
          let conns := db.connections.map
            (fun c => if c.id = validConnectionId then updated else c)
          .ok (updated, { db with connections := conns })

/-- Source `getValidAccessToken`: return the stored access credential while
`now < expiresAt`; only past that point attempt a refresh, wrapping any
refresh failure into a generic thrown error.  `refreshExpiresAt` is never
consulted, and no error path here flips `isConnected`. -/
def getValidAccessToken (connectionId : String) (env : TokenEndpointOutcome)
    (now : Nat) (db : DB) : Except String (String × DB) :=
  match validateConnectionId connectionId with
  | .error m => .error ("Failed to get valid access token: " ++ m)
  | .ok validConnectionId =>
    match db.connections.find? (fun c => c.id = validConnectionId && c.isConnected) with
    | none => .error "Failed to get valid access token: No active QuickBooks connection found"
    | some connection =>
      let isExpired := decide (connection.expiresAt ≤ now)
      if !isExpired then
        .ok (connection.accessToken, db)
      else
        match refreshTokenService validConnectionId env now db with
        | .ok (refreshed, db') => .ok (refreshed.accessToken, db')
        | .error m => .error ("Failed to get valid access token: " ++ m)

/-- Boolean list prefix test. -/
def listIsPrefixOfB [DecidableEq α] : List α → List α → Bool
  | [], _ => true
  | _ :: _, [] => false
  | a :: as, b :: bs => a = b && listIsPrefixOfB as bs

/-- Boolean list infix test. -/
def listIsInfixB [DecidableEq α] (needle : List α) : List α → Bool
  | [] => listIsPrefixOfB needle []
  | b :: bs => listIsPrefixOfB needle (b :: bs) || listIsInfixB needle bs

/-- Source `haystack.includes(needle)` of JavaScript strings. -/
def strIncludes (haystack needle : String) : Bool :=
  listIsInfixB needle.toList haystack.toList

/-- What the refresh middleware leaves behind: the (possibly updated) store
and the bearer value it wrote into the request's authorization header, when
it wrote one.  `next()` is called on every path. -/
structure MiddlewareOutcome where
  db : DB
  authHeader : Option String
  deriving DecidableEq, Repr

/-- Source `qboTokenRefreshMiddleware`: skip without a realm header, a missing or
incomplete or inactive connection; with the refresh credential expired
(`refreshExpiresAt ≤ now`), mark the connection disconnected and continue;
otherwise refresh proactively under the 10-minute threshold (disconnecting
when the refresh fails with an invalid-refresh-token or authentication
message) or pass the stored token through. -/
def qboTokenRefreshMiddleware (realmIdHeader : Option String)
    (env : TokenEndpointOutcome) (now : Nat) (db : DB) : MiddlewareOutcome :=
  match realmIdHeader with
  | none => { db := db, authHeader := none }
  | some realmId =>
    match db.connections.find? (fun c => c.realmId = realmId) with
    | none => { db := db, authHeader := none }
    | some connection =>
      if connection.accessToken = "" || connection.refreshToken = "" then
        { db := db, authHeader := none }
      else if !connection.isConnected then
        { db := db, authHeader := none }
      else if connection.refreshExpiresAt ≤ now then
        { db := { db with connections := db.connections.map (fun c =>
            if c.id = connection.id then
              { c with isConnected := false, disconnectedAt := some now }
            else c) }
          authHeader := none }
      else if connection.expiresAt < now + 10 * 60 * 1000 then
        match refreshTokenService connection.id env now db with
        | .ok (refreshed, db') =>
          { db := db', authHeader := some ("Bearer " ++ refreshed.accessToken) }
        | .error m =>
          if strIncludes m "Invalid or expired refresh token" ||
             strIncludes m "Authentication failed" then
            { db := { db with connections := db.connections.map (fun c =>
                if c.id = connection.id then
                  { c with isConnected := false, disconnectedAt := some now }
                else c) }
              authHeader := none }
          else
            { db := db, authHeader := none }
      else
        { db := db, authHeader := some ("Bearer " ++ connection.accessToken) }

/-!  ## Concrete fixtures  -/

/-- A `SalesItemLineDetail` line item. -/
def salesLine (ref nm : String) (amt : Int) : LineItem :=
  { detailType := "SalesItemLineDetail", itemRef := ref, itemName := nm,
    quantity := some 1, amount := amt }

/-- A tax line item, as stored in the invoice's `lineItems` JSON. -/
def taxLine (amt : Int) : LineItem :=
  { detailType := "TaxLineDetail", itemRef := "", itemName := "Tax",
    quantity := none, amount := amt }

/-- An invoice whose recorded total of 110 includes a 10 tax line. -/
def invoiceWithTaxLine : Invoice :=
  { id := "inv-tax", docNumber := "INV-2", customerId := "42",
    qboConnectionId := "conn-0", qboInvoiceId := none, syncToken := none,
    syncStatus := SyncStatus.PENDING, lastSyncedAt := none, total := 110,
    lineItems := [salesLine "item-1" "Widget" 100, taxLine 10], createdAt := 0 }

/-- Scenario A's invoice: total 100 with two sales lines of 80 and 20. -/
def scenarioAInvoice : Invoice :=
  { id := "inv-a", docNumber := "INV-1", customerId := "42",
    qboConnectionId := "conn-0", qboInvoiceId := none, syncToken := none,
    syncStatus := SyncStatus.PENDING, lastSyncedAt := none, total := 100,
    lineItems := [salesLine "item-1" "Design" 80, salesLine "item-2" "Dev" 20],
    createdAt := 0 }

/-!  ## Helper lemmas  -/

theorem findOrCreateConnection_invoices (realmId accessToken : String) (now : Nat) (db : DB) :
    (findOrCreateConnection realmId accessToken now db).2.invoices = db.invoices := by
  unfold findOrCreateConnection
  split <;> rfl

theorem findOrCreateConnection_payments (realmId accessToken : String) (now : Nat) (db : DB) :
    (findOrCreateConnection realmId accessToken now db).2.payments = db.payments := by
  unfold findOrCreateConnection
  split <;> rfl

theorem findOrCreateConnection_syncLogs (realmId accessToken : String) (now : Nat) (db : DB) :
    (findOrCreateConnection realmId accessToken now db).2.syncLogs = db.syncLogs := by
  unfold findOrCreateConnection
  split <;> rfl

theorem findOrCreateConnection_nextLogId (realmId accessToken : String) (now : Nat) (db : DB) :
    (findOrCreateConnection realmId accessToken now db).2.nextLogId = db.nextLogId := by
  unfold findOrCreateConnection
  split <;> rfl

theorem lookupInvoice_congr {db1 db2 : DB} (h : db1.invoices = db2.invoices)
    (invoiceId : String) : lookupInvoice db1 invoiceId = lookupInvoice db2 invoiceId := by
  unfold lookupInvoice
  rw [h]

theorem lookupPayment_congr {db1 db2 : DB} (h : db1.payments = db2.payments)
    (paymentId : String) : lookupPayment db1 paymentId = lookupPayment db2 paymentId := by
  unfold lookupPayment
  rw [h]

theorem chunkList_succ_join (n : Nat) :
    ∀ (k : Nat) (l : List α), l.length ≤ k → (chunkList (n + 1) l).flatten = l := by
  intro k
  induction k with
  | zero =>
    intro l hl
    match l with
    | [] => simp [chunkList]
  | succ k ih =>
    intro l hl
    match l with
    | [] => simp [chunkList]
    | a :: l' =>
      rw [chunkList]
      simp only [List.flatten_cons, Nat.add_sub_cancel]
      have hlen : (l'.drop n).length ≤ k := by
        simp only [List.length_drop]
        simp only [List.length_cons] at hl
        omega
      rw [ih (l'.drop n) hlen]
      simp [List.take_succ_cons, List.take_append_drop]

theorem chunkList10_join (l : List α) : (chunkList 10 l).flatten = l :=
  chunkList_succ_join 9 l.length l (Nat.le_refl _)

theorem runInvoiceItems_ids (accessToken realmId : String)
    (env : String → QBOInvoiceApiOutcome) (now : Nat) (auditOk : Bool) (bn : Nat)
    (l : List Invoice) (db : DB) :
    (runInvoiceItems accessToken realmId env now auditOk bn l db).1.map
      (fun r => r.invoiceId) = l.map (fun i => i.id) := by
  induction l generalizing db with
  | nil => rfl
  | cons inv rest ih =>
    simp only [runInvoiceItems, List.map_cons]
    exact congrArg _ (ih _)

theorem runInvoiceItems_counts (accessToken realmId : String)
    (env : String → QBOInvoiceApiOutcome) (now : Nat) (auditOk : Bool) (bn : Nat)
    (l : List Invoice) (db : DB) :
    (runInvoiceItems accessToken realmId env now auditOk bn l db).2.1 +
      (runInvoiceItems accessToken realmId env now auditOk bn l db).2.2.1 = l.length := by
  induction l generalizing db with
  | nil => rfl
  | cons inv rest ih =>
    simp only [runInvoiceItems, List.length_cons]
    have h := ih (syncInvoiceToQBO inv.id accessToken realmId (env inv.id) now auditOk db).2
    cases hs : (syncInvoiceToQBO inv.id accessToken realmId (env inv.id) now auditOk db).1.success <;>
      simp [hs] <;> omega

theorem runInvoiceBatches_ids (accessToken realmId : String)
    (env : String → QBOInvoiceApiOutcome) (now : Nat) (auditOk : Bool)
    (bs : List (List Invoice)) (bn : Nat) (db : DB) :
    (runInvoiceBatches accessToken realmId env now auditOk bs bn db).1.map
      (fun r => r.invoiceId) = bs.flatten.map (fun i => i.id) := by
  induction bs generalizing bn db with
  | nil => rfl
  | cons batch rest ih =>
    simp only [runInvoiceBatches, List.flatten_cons, List.map_append]
    rw [runInvoiceItems_ids, ih]

theorem runInvoiceBatches_counts (accessToken realmId : String)
    (env : String → QBOInvoiceApiOutcome) (now : Nat) (auditOk : Bool)
    (bs : List (List Invoice)) (bn : Nat) (db : DB) :
    (runInvoiceBatches accessToken realmId env now auditOk bs bn db).2.1 +
      (runInvoiceBatches accessToken realmId env now auditOk bs bn db).2.2.1 =
      bs.flatten.length := by
  induction bs generalizing bn db with
  | nil => rfl
  | cons batch rest ih =>
    simp only [runInvoiceBatches, List.flatten_cons, List.length_append]
    have h1 := runInvoiceItems_counts accessToken realmId env now auditOk bn batch db
    have h2 := ih (bn + 1)
      (runInvoiceItems accessToken realmId env now auditOk bn batch db).2.2.2
    omega

theorem runPaymentItems_ids (accessToken realmId : String)
    (env : String → QBOPaymentApiOutcome) (now : Nat) (auditOk : Bool) (bn : Nat)
    (l : List Payment) (db : DB) :
    (runPaymentItems accessToken realmId env now auditOk bn l db).1.map
      (fun r => r.paymentId) = l.map (fun p => p.id) := by
  induction l generalizing db with
  | nil => rfl
  | cons p rest ih =>
    simp only [runPaymentItems, List.map_cons]
    exact congrArg _ (ih _)

theorem runPaymentItems_counts (accessToken realmId : String)
    (env : String → QBOPaymentApiOutcome) (now : Nat) (auditOk : Bool) (bn : Nat)
    (l : List Payment) (db : DB) :
    (runPaymentItems accessToken realmId env now auditOk bn l db).2.1 +
      (runPaymentItems accessToken realmId env now auditOk bn l db).2.2.1 = l.length := by
  induction l generalizing db with
  | nil => rfl
  | cons p rest ih =>
    simp only [runPaymentItems, List.length_cons]
    have h := ih (syncPaymentToQBO p.id accessToken realmId (env p.id) now auditOk db).2
    cases hs : (syncPaymentToQBO p.id accessToken realmId (env p.id) now auditOk db).1.success <;>
      simp [hs] <;> omega

theorem runPaymentBatches_ids (accessToken realmId : String)
    (env : String → QBOPaymentApiOutcome) (now : Nat) (auditOk : Bool)
    (bs : List (List Payment)) (bn : Nat) (db : DB) :
    (runPaymentBatches accessToken realmId env now auditOk bs bn db).1.map
      (fun r => r.paymentId) = bs.flatten.map (fun p => p.id) := by
  induction bs generalizing bn db with
  | nil => rfl
  | cons batch rest ih =>
    simp only [runPaymentBatches, List.flatten_cons, List.map_append]
    rw [runPaymentItems_ids, ih]

theorem runPaymentBatches_counts (accessToken realmId : String)
    (env : String → QBOPaymentApiOutcome) (now : Nat) (auditOk : Bool)
    (bs : List (List Payment)) (bn : Nat) (db : DB) :
    (runPaymentBatches accessToken realmId env now auditOk bs bn db).2.1 +
      (runPaymentBatches accessToken realmId env now auditOk bs bn db).2.2.1 =
      bs.flatten.length := by
  induction bs generalizing bn db with
  | nil => rfl
  | cons batch rest ih =>
    simp only [runPaymentBatches, List.flatten_cons, List.length_append]
    have h1 := runPaymentItems_counts accessToken realmId env now auditOk bn batch db
    have h2 := ih (bn + 1)
      (runPaymentItems accessToken realmId env now auditOk bn batch db).2.2.2
    omega

/-!  ## Claim theorems  -/

/-- The candidate list a full invoice orchestrator run works through:
connection resolution followed by the pending query. -/
def invoicePendingSelection (accessToken realmId : String) (now : Nat) (db : DB) :
    List Invoice :=
  pendingInvoicesFor (findOrCreateConnection realmId accessToken now db).2
    (findOrCreateConnection realmId accessToken now db).1

/-- The candidate list a full payment orchestrator run works through. -/
def paymentPendingSelection (accessToken realmId : String) (now : Nat) (db : DB) :
    List Payment :=
  pendingPaymentsFor (findOrCreateConnection realmId accessToken now db).2
    (findOrCreateConnection realmId accessToken now db).1

/-- C3: the transformer drops every non-`SalesItemLineDetail` line while the
invoice's recorded total is submitted implicitly unadjusted, so for an invoice
whose total includes a tax line the payload's line amounts sum to less than
the recorded total — the invariant claimed for every invoice fails; the
claim's own Scenario A (two sales lines 80 + 20 against a 100 total) does
hold. -/
theorem transform_drops_tax_lines_breaking_total_invariant :
    payloadLineSum (transformInvoiceToQBO invoiceWithTaxLine) = 100 ∧
    invoiceWithTaxLine.total = 110 ∧
    payloadLineSum (transformInvoiceToQBO invoiceWithTaxLine) ≠ invoiceWithTaxLine.total ∧
    payloadLineSum (transformInvoiceToQBO scenarioAInvoice) = scenarioAInvoice.total := by
  refine ⟨rfl, rfl, ?_, rfl⟩
  decide

/-- C9: both batch orchestrators return `success := true` whenever candidate
selection succeeds — on the empty no-op path and on the processing path alike,
regardless of the per-item outcomes `env` dictates, so an all-failed run is
visible only through `failureCount` and the per-item results. -/
theorem batch_top_level_success_flag_always_true
    (accessToken realmId : String) (envI : String → QBOInvoiceApiOutcome)
    (envP : String → QBOPaymentApiOutcome) (now : Nat) (auditOk : Bool) (db : DB) :
    (syncAllInvoicesToQBO accessToken realmId envI now auditOk db).1.success = true ∧
    (syncAllPaymentsToQBO accessToken realmId envP now auditOk db).1.success = true := by
  constructor
  · unfold syncAllInvoicesToQBO
    dsimp only
    split <;> rfl
  · unfold syncAllPaymentsToQBO
    dsimp only
    split <;> rfl

/-- An invoice whose remote id is the empty string: non-null, yet falsy for
the source's `if (invoice.qboInvoiceId)` guard. -/
def emptyRemoteIdInvoice : Invoice :=
  { id := "inv-e", docNumber := "INV-4", customerId := "42",
    qboConnectionId := "conn-0", qboInvoiceId := some "", syncToken := none,
    syncStatus := SyncStatus.PENDING, lastSyncedAt := none, total := 50,
    lineItems := [salesLine "item-1" "X" 50], createdAt := 2 }

/-- A store holding only `emptyRemoteIdInvoice`. -/
def dbEmptyRemoteId : DB :=
  { invoices := [emptyRemoteIdInvoice], payments := [], connections := [],
    syncLogs := [], nextLogId := 0, nextConnNum := 0 }

/-- C1 counterexample: an invoice whose remote id is the non-null empty
string slips past the truthiness guard — the sync does not return
`ALREADY_SYNCED`; it resubmits the invoice, succeeds, overwrites the sync
fields (remote id becomes `"qbo-9"`, status `SUCCESS`) and writes an audit
row, so the claim as stated fails on the code at this input. -/
theorem syncOne_empty_remote_id_resubmits :
    emptyRemoteIdInvoice.qboInvoiceId = some "" ∧
    (syncInvoiceToQBO "inv-e" "tok" "realm" (QBOInvoiceApiOutcome.ok "qbo-9" "0") 7 true
        dbEmptyRemoteId).1.success = true ∧
    (syncInvoiceToQBO "inv-e" "tok" "realm" (QBOInvoiceApiOutcome.ok "qbo-9" "0") 7 true
        dbEmptyRemoteId).1.error = none ∧
    (lookupInvoice (syncInvoiceToQBO "inv-e" "tok" "realm"
        (QBOInvoiceApiOutcome.ok "qbo-9" "0") 7 true dbEmptyRemoteId).2 "inv-e").map
      (fun i => i.qboInvoiceId) = some (some "qbo-9") ∧
    (lookupInvoice (syncInvoiceToQBO "inv-e" "tok" "realm"
        (QBOInvoiceApiOutcome.ok "qbo-9" "0") 7 true dbEmptyRemoteId).2 "inv-e").map
      (fun i => i.syncStatus) = some SyncStatus.SUCCESS ∧
    (syncInvoiceToQBO "inv-e" "tok" "realm" (QBOInvoiceApiOutcome.ok "qbo-9" "0") 7 true
        dbEmptyRemoteId).2.syncLogs.length = 1 ∧
    dbEmptyRemoteId.syncLogs.length = 0 := by
  exact ⟨rfl, rfl, rfl, rfl, rfl, rfl, rfl⟩

/-- C1 as amended: for an invoice or payment whose remote id is non-null
AND non-empty — the JavaScript-truthy guard `if (entity.remoteId)` of the
source, captured by `strTruthy` — the single-record sync returns an
`ALREADY_SYNCED` failure result immediately and leaves the entity rows (sync
fields included) and the audit log exactly as they were; an entity whose
remote id is the empty string slips past the guard and is resubmitted (see
the counterexample). -/
theorem syncOne_already_synced_guard
    (accessToken realmId : String) (now : Nat) (auditOk : Bool) (db : DB) :
    (∀ (invoiceId q : String) (inv : Invoice) (envI : QBOInvoiceApiOutcome),
      lookupInvoice db invoiceId = some inv → strTruthy inv.qboInvoiceId = some q →
      (syncInvoiceToQBO invoiceId accessToken realmId envI now auditOk db).1.success = false ∧
      (syncInvoiceToQBO invoiceId accessToken realmId envI now auditOk db).1.error =
        some "ALREADY_SYNCED" ∧
      (syncInvoiceToQBO invoiceId accessToken realmId envI now auditOk db).2.invoices =
        db.invoices ∧
      (syncInvoiceToQBO invoiceId accessToken realmId envI now auditOk db).2.payments =
        db.payments ∧
      (syncInvoiceToQBO invoiceId accessToken realmId envI now auditOk db).2.syncLogs =
        db.syncLogs) ∧
    (∀ (paymentId q : String) (p : Payment) (envP : QBOPaymentApiOutcome),
      lookupPayment db paymentId = some p → strTruthy p.qboPaymentId = some q →
      (syncPaymentToQBO paymentId accessToken realmId envP now auditOk db).1.success = false ∧
      (syncPaymentToQBO paymentId accessToken realmId envP now auditOk db).1.error =
        some "ALREADY_SYNCED" ∧
      (syncPaymentToQBO paymentId accessToken realmId envP now auditOk db).2.invoices =
        db.invoices ∧
      (syncPaymentToQBO paymentId accessToken realmId envP now auditOk db).2.payments =
        db.payments ∧
      (syncPaymentToQBO paymentId accessToken realmId envP now auditOk db).2.syncLogs =
        db.syncLogs) := by
  constructor
  · intro invoiceId q inv envI h1 h2
    have hlook : lookupInvoice (findOrCreateConnection realmId accessToken now db).2 invoiceId
        = some inv := by
      rw [lookupInvoice_congr (findOrCreateConnection_invoices realmId accessToken now db)]
      exact h1
    unfold syncInvoiceToQBO syncInvoiceBody
    dsimp only
    rw [hlook]
    dsimp only
    rw [h2]
    exact ⟨rfl, rfl,
      findOrCreateConnection_invoices realmId accessToken now db,
      findOrCreateConnection_payments realmId accessToken now db,
      findOrCreateConnection_syncLogs realmId accessToken now db⟩
  · intro paymentId q p envP h1 h2
    have hlook : lookupPayment (findOrCreateConnection realmId accessToken now db).2 paymentId
        = some p := by
      rw [lookupPayment_congr (findOrCreateConnection_payments realmId accessToken now db)]
      exact h1
    unfold syncPaymentToQBO syncPaymentBody
    dsimp only
    rw [hlook]
    dsimp only
    rw [h2]
    exact ⟨rfl, rfl,
      findOrCreateConnection_invoices realmId accessToken now db,
      findOrCreateConnection_payments realmId accessToken now db,
      findOrCreateConnection_syncLogs realmId accessToken now db⟩

theorem syncAllInvoices_spec
    (accessToken realmId : String) (envI : String → QBOInvoiceApiOutcome)
    (now : Nat) (auditOk : Bool) (db : DB) :
    (syncAllInvoicesToQBO accessToken realmId envI now auditOk db).1.totalProcessed =
        (invoicePendingSelection accessToken realmId now db).length ∧
      (syncAllInvoicesToQBO accessToken realmId envI now auditOk db).1.successCount +
        (syncAllInvoicesToQBO accessToken realmId envI now auditOk db).1.failureCount =
        (invoicePendingSelection accessToken realmId now db).length ∧
      (syncAllInvoicesToQBO accessToken realmId envI now auditOk db).1.results.map
          (fun r => r.invoiceId) =
        (invoicePendingSelection accessToken realmId now db).map (fun i => i.id) ∧
      ((invoicePendingSelection accessToken realmId now db).length = 0 →
        (syncAllInvoicesToQBO accessToken realmId envI now auditOk db).1 =
          { success := true, totalProcessed := 0, successCount := 0, failureCount := 0,
            results := [], message := "No pending invoices found to sync" }) := by
  unfold invoicePendingSelection syncAllInvoicesToQBO
  dsimp only
  by_cases hp : (pendingInvoicesFor (findOrCreateConnection realmId accessToken now db).2
      (findOrCreateConnection realmId accessToken now db).1).isEmpty
  · rw [if_pos hp]
    have hnil := List.isEmpty_iff.mp hp
    rw [hnil]
    exact ⟨rfl, rfl, rfl, fun _ => rfl⟩
  · rw [if_neg hp]
    refine ⟨rfl, ?_, ?_, ?_⟩
    · have h := runInvoiceBatches_counts accessToken realmId envI now auditOk
        (chunkList 10 (pendingInvoicesFor (findOrCreateConnection realmId accessToken now db).2
          (findOrCreateConnection realmId accessToken now db).1)) 1
        (findOrCreateConnection realmId accessToken now db).2
      rw [chunkList10_join] at h
      exact h
    · have h := runInvoiceBatches_ids accessToken realmId envI now auditOk
        (chunkList 10 (pendingInvoicesFor (findOrCreateConnection realmId accessToken now db).2
          (findOrCreateConnection realmId accessToken now db).1)) 1
        (findOrCreateConnection realmId accessToken now db).2
      rw [chunkList10_join] at h
      exact h
    · intro h0
      exact absurd (List.isEmpty_iff.mpr (List.length_eq_zero.mp h0)) hp

theorem syncAllPayments_spec
    (accessToken realmId : String) (envP : String → QBOPaymentApiOutcome)
    (now : Nat) (auditOk : Bool) (db : DB) :
    (syncAllPaymentsToQBO accessToken realmId envP now auditOk db).1.totalProcessed =
        (paymentPendingSelection accessToken realmId now db).length ∧
      (syncAllPaymentsToQBO accessToken realmId envP now auditOk db).1.successCount +
        (syncAllPaymentsToQBO accessToken realmId envP now auditOk db).1.failureCount =
        (paymentPendingSelection accessToken realmId now db).length ∧
      (syncAllPaymentsToQBO accessToken realmId envP now auditOk db).1.results.map
          (fun r => r.paymentId) =
        (paymentPendingSelection accessToken realmId now db).map (fun p => p.id) ∧
      ((paymentPendingSelection accessToken realmId now db).length = 0 →
        (syncAllPaymentsToQBO accessToken realmId envP now auditOk db).1 =
          { success := true, totalProcessed := 0, successCount := 0, failureCount := 0,
            results := [], message := "No pending payments found to sync" }) := by
  unfold paymentPendingSelection syncAllPaymentsToQBO
  dsimp only
  by_cases hp : (pendingPaymentsFor (findOrCreateConnection realmId accessToken now db).2
      (findOrCreateConnection realmId accessToken now db).1).isEmpty
  · rw [if_pos hp]
    have hnil := List.isEmpty_iff.mp hp
    rw [hnil]
    exact ⟨rfl, rfl, rfl, fun _ => rfl⟩
  · rw [if_neg hp]
    refine ⟨rfl, ?_, ?_, ?_⟩
    · have h := runPaymentBatches_counts accessToken realmId envP now auditOk
        (chunkList 10 (pendingPaymentsFor (findOrCreateConnection realmId accessToken now db).2
          (findOrCreateConnection realmId accessToken now db).1)) 1
        (findOrCreateConnection realmId accessToken now db).2
      rw [chunkList10_join] at h
      exact h
    · have h := runPaymentBatches_ids accessToken realmId envP now auditOk
        (chunkList 10 (pendingPaymentsFor (findOrCreateConnection realmId accessToken now db).2
          (findOrCreateConnection realmId accessToken now db).1)) 1
        (findOrCreateConnection realmId accessToken now db).2
      rw [chunkList10_join] at h
      exact h
    · intro h0
      exact absurd (List.isEmpty_iff.mpr (List.length_eq_zero.mp h0)) hp

/-- C2: a full orchestrator run attempts each of the N pending candidates
exactly once — the per-item result list lists exactly the candidate ids in
order — and reports `totalProcessed = N` with
`successCount + failureCount = N`; with no candidates it returns the
successful no-op result with all counts zero. -/
theorem batch_conservation
    (accessToken realmId : String) (envI : String → QBOInvoiceApiOutcome)
    (envP : String → QBOPaymentApiOutcome) (now : Nat) (auditOk : Bool) (db : DB) :
    ((syncAllInvoicesToQBO accessToken realmId envI now auditOk db).1.totalProcessed =
        (invoicePendingSelection accessToken realmId now db).length ∧
      (syncAllInvoicesToQBO accessToken realmId envI now auditOk db).1.successCount +
        (syncAllInvoicesToQBO accessToken realmId envI now auditOk db).1.failureCount =
        (invoicePendingSelection accessToken realmId now db).length ∧
      (syncAllInvoicesToQBO accessToken realmId envI now auditOk db).1.results.map
          (fun r => r.invoiceId) =
        (invoicePendingSelection accessToken realmId now db).map (fun i => i.id) ∧
      ((invoicePendingSelection accessToken realmId now db).length = 0 →
        (syncAllInvoicesToQBO accessToken realmId envI now auditOk db).1 =
          { success := true, totalProcessed := 0, successCount := 0, failureCount := 0,
            results := [], message := "No pending invoices found to sync" })) ∧
    ((syncAllPaymentsToQBO accessToken realmId envP now auditOk db).1.totalProcessed =
        (paymentPendingSelection accessToken realmId now db).length ∧
      (syncAllPaymentsToQBO accessToken realmId envP now auditOk db).1.successCount +
        (syncAllPaymentsToQBO accessToken realmId envP now auditOk db).1.failureCount =
        (paymentPendingSelection accessToken realmId now db).length ∧
      (syncAllPaymentsToQBO accessToken realmId envP now auditOk db).1.results.map
          (fun r => r.paymentId) =
        (paymentPendingSelection accessToken realmId now db).map (fun p => p.id) ∧
      ((paymentPendingSelection accessToken realmId now db).length = 0 →
        (syncAllPaymentsToQBO accessToken realmId envP now auditOk db).1 =
          { success := true, totalProcessed := 0, successCount := 0, failureCount := 0,
            results := [], message := "No pending payments found to sync" })) :=
  ⟨syncAllInvoices_spec accessToken realmId envI now auditOk db,
   syncAllPayments_spec accessToken realmId envP now auditOk db⟩

/-- A store with no rows at all. -/
def emptyDB : DB :=
  { invoices := [], payments := [], connections := [], syncLogs := [],
    nextLogId := 0, nextConnNum := 0 }

/-- Witness for C2 at a concrete store with zero candidates: the orchestrator
returns the successful no-op result. -/
theorem batch_conservation_witness :
    (invoicePendingSelection "tok" "realm" 0 emptyDB).length = 0 ∧
    (syncAllInvoicesToQBO "tok" "realm" (fun _ => QBOInvoiceApiOutcome.noEntity) 0 true
        emptyDB).1 =
      { success := true, totalProcessed := 0, successCount := 0, failureCount := 0,
        results := [], message := "No pending invoices found to sync" } :=
  ⟨rfl,
    (batch_conservation "tok" "realm" (fun _ => QBOInvoiceApiOutcome.noEntity)
      (fun _ => QBOPaymentApiOutcome.noEntity) 0 true emptyDB).1.2.2.2 rfl⟩

theorem batchSyncStatusCode_classification (t s f : Nat) (h : s + f = t) :
    (t = 0 → batchSyncStatusCode t s f = 200) ∧
    (f = 0 → batchSyncStatusCode t s f = 200) ∧
    (0 < s → 0 < f → batchSyncStatusCode t s f = 207) ∧
    (0 < t → s = 0 → batchSyncStatusCode t s f = 400) := by
  refine ⟨?_, ?_, ?_, ?_⟩ <;> intros <;> simp only [batchSyncStatusCode] <;>
    split_ifs <;> simp_all

/-- C6: the batch sync endpoint's HTTP status is a function of the aggregated
counts — 200 on a zero-candidate run or when every processed item succeeded,
207 when successes and failures mix, 400 when every attempted item failed. -/
theorem batch_endpoint_status_classification
    (accessToken realmId : String) (envI : String → QBOInvoiceApiOutcome)
    (now : Nat) (auditOk : Bool) (db : DB) :
    ((syncAllInvoicesEndpoint accessToken realmId envI now auditOk db).2.1.totalProcessed = 0 →
      (syncAllInvoicesEndpoint accessToken realmId envI now auditOk db).1 = 200) ∧
    ((syncAllInvoicesEndpoint accessToken realmId envI now auditOk db).2.1.failureCount = 0 →
      (syncAllInvoicesEndpoint accessToken realmId envI now auditOk db).1 = 200) ∧
    (0 < (syncAllInvoicesEndpoint accessToken realmId envI now auditOk db).2.1.successCount →
      0 < (syncAllInvoicesEndpoint accessToken realmId envI now auditOk db).2.1.failureCount →
      (syncAllInvoicesEndpoint accessToken realmId envI now auditOk db).1 = 207) ∧
    (0 < (syncAllInvoicesEndpoint accessToken realmId envI now auditOk db).2.1.totalProcessed →
      (syncAllInvoicesEndpoint accessToken realmId envI now auditOk db).2.1.successCount = 0 →
      (syncAllInvoicesEndpoint accessToken realmId envI now auditOk db).1 = 400) := by
  have hspec := syncAllInvoices_spec accessToken realmId envI now auditOk db
  have hcons : (syncAllInvoicesToQBO accessToken realmId envI now auditOk db).1.successCount +
      (syncAllInvoicesToQBO accessToken realmId envI now auditOk db).1.failureCount =
      (syncAllInvoicesToQBO accessToken realmId envI now auditOk db).1.totalProcessed := by
    rw [hspec.2.1, hspec.1]
  unfold syncAllInvoicesEndpoint
  dsimp only
  exact batchSyncStatusCode_classification _ _ _ hcons

/-- Witness for C6 at a concrete zero-candidate store: the endpoint status is
200. -/
theorem batch_endpoint_status_classification_witness :
    (syncAllInvoicesEndpoint "tok" "realm" (fun _ => QBOInvoiceApiOutcome.noEntity) 0 true
      emptyDB).1 = 200 :=
  (batch_endpoint_status_classification "tok" "realm"
    (fun _ => QBOInvoiceApiOutcome.noEntity) 0 true emptyDB).1 rfl

/-- Two stores that agree on everything except the audit log table and its id
counter. -/
def NonLogEq (a b : DB) : Prop :=
  a.invoices = b.invoices ∧ a.payments = b.payments ∧
  a.connections = b.connections ∧ a.nextConnNum = b.nextConnNum

theorem nonLogEq_refl (a : DB) : NonLogEq a a := ⟨rfl, rfl, rfl, rfl⟩

theorem nonLogEq_symm {a b : DB} (h : NonLogEq a b) : NonLogEq b a :=
  ⟨h.1.symm, h.2.1.symm, h.2.2.1.symm, h.2.2.2.symm⟩

theorem nonLogEq_trans {a b c : DB} (h1 : NonLogEq a b) (h2 : NonLogEq b c) :
    NonLogEq a c :=
  ⟨h1.1.trans h2.1, h1.2.1.trans h2.2.1, h1.2.2.1.trans h2.2.2.1, h1.2.2.2.trans h2.2.2.2⟩

theorem createSyncLog_nonLogEq (d : CreateSyncLogData) (now : Nat) (auditOk : Bool)
    (db : DB) : NonLogEq (createSyncLog d now auditOk db) db := by
  unfold createSyncLog
  split <;> exact ⟨rfl, rfl, rfl, rfl⟩

theorem findOrCreateConnection_congr {a b : DB} (h : NonLogEq a b)
    (realmId accessToken : String) (now : Nat) :
    (findOrCreateConnection realmId accessToken now a).1 =
      (findOrCreateConnection realmId accessToken now b).1 ∧
    NonLogEq (findOrCreateConnection realmId accessToken now a).2
      (findOrCreateConnection realmId accessToken now b).2 := by
  obtain ⟨hi, hp, hc, hn⟩ := h
  unfold findOrCreateConnection NonLogEq
  rw [hc, hn]
  cases b.connections.find? (fun c => c.realmId = realmId) with
  | some c => exact ⟨rfl, hi, hp, hc, hn⟩
  | none => exact ⟨rfl, hi, hp, rfl, rfl⟩

theorem updateInvoice_congr {a b : DB} (h : NonLogEq a b) (invoiceId : String)
    (f : Invoice → Invoice) : NonLogEq (updateInvoice a invoiceId f) (updateInvoice b invoiceId f) := by
  obtain ⟨hi, hp, hc, hn⟩ := h
  exact ⟨by simp only [updateInvoice, hi], hp, hc, hn⟩

theorem updatePayment_congr {a b : DB} (h : NonLogEq a b) (paymentId : String)
    (f : Payment → Payment) : NonLogEq (updatePayment a paymentId f) (updatePayment b paymentId f) := by
  obtain ⟨hi, hp, hc, hn⟩ := h
  exact ⟨hi, by simp only [updatePayment, hp], hc, hn⟩

theorem lookupInvoice_nonLogEq {a b : DB} (h : NonLogEq a b) (invoiceId : String) :
    lookupInvoice a invoiceId = lookupInvoice b invoiceId :=
  lookupInvoice_congr h.1 invoiceId

theorem lookupPayment_nonLogEq {a b : DB} (h : NonLogEq a b) (paymentId : String) :
    lookupPayment a paymentId = lookupPayment b paymentId :=
  lookupPayment_congr h.2.1 paymentId

theorem handleInvoiceSyncError_congr {a b : DB} (h : NonLogEq a b)
    (invoiceId accessToken realmId : String) (e : ThrownError) (now : Nat)
    (okA okB : Bool) :
    (handleInvoiceSyncError invoiceId accessToken realmId e now okA a).1 =
      (handleInvoiceSyncError invoiceId accessToken realmId e now okB b).1 ∧
    NonLogEq (handleInvoiceSyncError invoiceId accessToken realmId e now okA a).2
      (handleInvoiceSyncError invoiceId accessToken realmId e now okB b).2 := by
  unfold handleInvoiceSyncError
  dsimp only
  rw [lookupInvoice_nonLogEq h invoiceId]
  cases lookupInvoice b invoiceId with
  | none => exact ⟨rfl, h⟩
  | some inv =>
    dsimp only
    have hupd := updateInvoice_congr h invoiceId
      (fun inv => { inv with syncStatus := SyncStatus.FAILED, lastSyncedAt := some now })
    have hfoc := findOrCreateConnection_congr hupd realmId accessToken now
    refine ⟨rfl, ?_⟩
    exact nonLogEq_trans (createSyncLog_nonLogEq _ now okA _)
      (nonLogEq_trans hfoc.2 (nonLogEq_symm (createSyncLog_nonLogEq _ now okB _)))

theorem handlePaymentSyncError_congr {a b : DB} (h : NonLogEq a b)
    (paymentId accessToken realmId : String) (e : ThrownError) (now : Nat)
    (okA okB : Bool) :
    (handlePaymentSyncError paymentId accessToken realmId e now okA a).1 =
      (handlePaymentSyncError paymentId accessToken realmId e now okB b).1 ∧
    NonLogEq (handlePaymentSyncError paymentId accessToken realmId e now okA a).2
      (handlePaymentSyncError paymentId accessToken realmId e now okB b).2 := by
  unfold handlePaymentSyncError
  dsimp only
  rw [lookupPayment_nonLogEq h paymentId]
  cases lookupPayment b paymentId with
  | none => exact ⟨rfl, h⟩
  | some p =>
    dsimp only
    have hupd := updatePayment_congr h paymentId
      (fun p => { p with syncStatus := SyncStatus.FAILED, lastSyncedAt := some now })
    have hfoc := findOrCreateConnection_congr hupd realmId accessToken now
    refine ⟨rfl, ?_⟩
    exact nonLogEq_trans (createSyncLog_nonLogEq _ now okA _)
      (nonLogEq_trans hfoc.2 (nonLogEq_symm (createSyncLog_nonLogEq _ now okB _)))

theorem syncInvoiceToQBO_auditOk_transparent
    (invoiceId accessToken realmId : String) (rem : QBOInvoiceApiOutcome)
    (now : Nat) (okA okB : Bool) (db : DB) :
    (syncInvoiceToQBO invoiceId accessToken realmId rem now okA db).1 =
      (syncInvoiceToQBO invoiceId accessToken realmId rem now okB db).1 ∧
    NonLogEq (syncInvoiceToQBO invoiceId accessToken realmId rem now okA db).2
      (syncInvoiceToQBO invoiceId accessToken realmId rem now okB db).2 := by
  unfold syncInvoiceToQBO syncInvoiceBody
  dsimp only
  cases hv : lookupInvoice (findOrCreateConnection realmId accessToken now db).2 invoiceId with
  | none =>
    exact handleInvoiceSyncError_congr (nonLogEq_refl _) invoiceId accessToken realmId _ now okA okB
  | some inv =>
    dsimp only
    cases hq : strTruthy inv.qboInvoiceId with
    | some q => exact ⟨rfl, nonLogEq_refl _⟩
    | none =>
      dsimp only
      have h3 : NonLogEq
          (createSyncLog
            { transactionType := TransactionType.INVOICE
              systemTransactionId := invoiceId
              quickbooksId := none
              status := SyncStatus.IN_PROGRESS
              operation := SyncOperation.CREATE
              qboConnectionId := (findOrCreateConnection realmId accessToken now db).1
              invoiceId := some invoiceId
              paymentId := none
              requestPayload := some (LogPayload.invoiceReq (transformInvoiceToQBO inv))
              responsePayload := none
              errorMessage := none
              errorCode := none } now okA
            (updateInvoice (findOrCreateConnection realmId accessToken now db).2 invoiceId
              (fun i => { i with syncStatus := SyncStatus.IN_PROGRESS })))
          (createSyncLog
            { transactionType := TransactionType.INVOICE
              systemTransactionId := invoiceId
              quickbooksId := none
              status := SyncStatus.IN_PROGRESS
              operation := SyncOperation.CREATE
              qboConnectionId := (findOrCreateConnection realmId accessToken now db).1
              invoiceId := some invoiceId
              paymentId := none
              requestPayload := some (LogPayload.invoiceReq (transformInvoiceToQBO inv))
              responsePayload := none
              errorMessage := none
              errorCode := none } now okB
            (updateInvoice (findOrCreateConnection realmId accessToken now db).2 invoiceId
              (fun i => { i with syncStatus := SyncStatus.IN_PROGRESS }))) :=
        nonLogEq_trans (createSyncLog_nonLogEq _ now okA _)
          (nonLogEq_symm (createSyncLog_nonLogEq _ now okB _))
      cases rem with
      | ok qid st =>
        refine ⟨rfl, ?_⟩
        exact nonLogEq_trans (createSyncLog_nonLogEq _ now okA _)
          (nonLogEq_trans (updateInvoice_congr h3 invoiceId _)
            (nonLogEq_symm (createSyncLog_nonLogEq _ now okB _)))
      | axiosFailure m s fa =>
        exact handleInvoiceSyncError_congr h3 invoiceId accessToken realmId _ now okA okB
      | faultBody c d =>
        exact handleInvoiceSyncError_congr h3 invoiceId accessToken realmId _ now okA okB
      | noEntity =>
        exact handleInvoiceSyncError_congr h3 invoiceId accessToken realmId _ now okA okB

theorem syncPaymentToQBO_auditOk_transparent
    (paymentId accessToken realmId : String) (rem : QBOPaymentApiOutcome)
    (now : Nat) (okA okB : Bool) (db : DB) :
    (syncPaymentToQBO paymentId accessToken realmId rem now okA db).1 =
      (syncPaymentToQBO paymentId accessToken realmId rem now okB db).1 ∧
    NonLogEq (syncPaymentToQBO paymentId accessToken realmId rem now okA db).2
      (syncPaymentToQBO paymentId accessToken realmId rem now okB db).2 := by
  unfold syncPaymentToQBO syncPaymentBody
  dsimp only
  cases hv : lookupPayment (findOrCreateConnection realmId accessToken now db).2 paymentId with
  | none =>
    exact handlePaymentSyncError_congr (nonLogEq_refl _) paymentId accessToken realmId _ now okA okB
  | some payment =>
    dsimp only
    cases hq : strTruthy payment.qboPaymentId with
    | some q => exact ⟨rfl, nonLogEq_refl _⟩
    | none =>
      dsimp only
      have h3 : NonLogEq
          (createSyncLog
            { transactionType := TransactionType.PAYMENT
              systemTransactionId := paymentId
              quickbooksId := none
              status := SyncStatus.IN_PROGRESS
              operation := SyncOperation.CREATE
              qboConnectionId := (findOrCreateConnection realmId accessToken now db).1
              invoiceId := none
              paymentId := some paymentId
              requestPayload := some (LogPayload.paymentReq
                (transformPaymentToQBO payment (findOrCreateConnection realmId accessToken now db).2))
              responsePayload := none
              errorMessage := none
              errorCode := none } now okA
            (updatePayment (findOrCreateConnection realmId accessToken now db).2 paymentId
              (fun p => { p with syncStatus := SyncStatus.IN_PROGRESS })))
          (createSyncLog
            { transactionType := TransactionType.PAYMENT
              systemTransactionId := paymentId
              quickbooksId := none
              status := SyncStatus.IN_PROGRESS
              operation := SyncOperation.CREATE
              qboConnectionId := (findOrCreateConnection realmId accessToken now db).1
              invoiceId := none
              paymentId := some paymentId
              requestPayload := some (LogPayload.paymentReq
                (transformPaymentToQBO payment (findOrCreateConnection realmId accessToken now db).2))
              responsePayload := none
              errorMessage := none
              errorCode := none } now okB
            (updatePayment (findOrCreateConnection realmId accessToken now db).2 paymentId
              (fun p => { p with syncStatus := SyncStatus.IN_PROGRESS }))) :=
        nonLogEq_trans (createSyncLog_nonLogEq _ now okA _)
          (nonLogEq_symm (createSyncLog_nonLogEq _ now okB _))
      cases rem with
      | ok qid st ua =>
        have hlook3 := fun s => lookupInvoice_nonLogEq h3 s
        refine ⟨rfl, ?_⟩
        simp only [hlook3]
        exact nonLogEq_trans (createSyncLog_nonLogEq _ now okA _)
          (nonLogEq_trans (updatePayment_congr h3 paymentId _)
            (nonLogEq_symm (createSyncLog_nonLogEq _ now okB _)))
      | axiosFailure m s fa =>
        exact handlePaymentSyncError_congr h3 paymentId accessToken realmId _ now okA okB
      | faultBody c d =>
        exact handlePaymentSyncError_congr h3 paymentId accessToken realmId _ now okA okB
      | noEntity =>
        exact handlePaymentSyncError_congr h3 paymentId accessToken realmId _ now okA okB

/-- C10: a failure while persisting an audit-log row is swallowed inside
`createSyncLog` (a no-op on the store, no propagated error), so a sync
attempt's returned result and every non-audit table — the entities with their
sync fields included — are identical whether or not the audit write
succeeds. -/
theorem audit_write_failure_transparent
    (accessToken realmId : String) (now : Nat) (db : DB) :
    (∀ (d : CreateSyncLogData), createSyncLog d now false db = db) ∧
    (∀ (invoiceId : String) (rem : QBOInvoiceApiOutcome),
      (syncInvoiceToQBO invoiceId accessToken realmId rem now true db).1 =
        (syncInvoiceToQBO invoiceId accessToken realmId rem now false db).1 ∧
      NonLogEq (syncInvoiceToQBO invoiceId accessToken realmId rem now true db).2
        (syncInvoiceToQBO invoiceId accessToken realmId rem now false db).2) ∧
    (∀ (paymentId : String) (rem : QBOPaymentApiOutcome),
      (syncPaymentToQBO paymentId accessToken realmId rem now true db).1 =
        (syncPaymentToQBO paymentId accessToken realmId rem now false db).1 ∧
      NonLogEq (syncPaymentToQBO paymentId accessToken realmId rem now true db).2
        (syncPaymentToQBO paymentId accessToken realmId rem now false db).2) :=
  ⟨fun _ => rfl,
   fun invoiceId rem =>
     syncInvoiceToQBO_auditOk_transparent invoiceId accessToken realmId rem now true false db,
   fun paymentId rem =>
     syncPaymentToQBO_auditOk_transparent paymentId accessToken realmId rem now true false db⟩

/-- C7: when the remote refresh response supplies no positive refresh-token
lifetime in either `refresh_token_expires_in` or `x_refresh_token_expires_in`,
the refresh still succeeds and persists `refreshExpiresAt` as now plus the
documented 100-day (8,640,000-second) default. -/
theorem refresh_fallback_100_days
    (connectionId : String) (resp : QBOTokenRefreshResponse) (now : Nat) (db : DB)
    (conn : QBOConnection)
    (hid : connectionId ≠ "")
    (hfind : db.connections.find? (fun c => c.id = connectionId) = some conn)
    (hconn : conn.isConnected = true)
    (hr : positiveLifetime resp.refresh_token_expires_in = none)
    (hx : positiveLifetime resp.x_refresh_token_expires_in = none) :
    ∃ updated db',
      refreshTokenService connectionId (TokenEndpointOutcome.ok resp) now db =
        Except.ok (updated, db') ∧
      updated.refreshExpiresAt = now + REFRESH_TOKEN_LIFETIME_SECONDS * 1000 ∧
      updated.accessToken = resp.access_token ∧
      updated.refreshToken = resp.refresh_token ∧
      db'.connections = db.connections.map
        (fun c => if c.id = connectionId then updated else c) := by
  unfold refreshTokenService validateConnectionId
  rw [if_neg hid]
  dsimp only
  rw [hfind]
  dsimp only
  rw [hconn]
  simp only [Bool.not_true, Bool.false_eq_true, if_false]
  have hcompute : computeRefreshExpiresAt resp now =
      (now : Int) + (REFRESH_TOKEN_LIFETIME_SECONDS : Int) * 1000 := by
    unfold computeRefreshExpiresAt
    rw [hr, hx]
  refine ⟨_, _, rfl, ?_, rfl, rfl, rfl⟩
  rw [hcompute]
  unfold REFRESH_TOKEN_LIFETIME_SECONDS
  dsimp only
  omega

/-- A connection whose refresh credential expired in the past while the
access token is still valid. -/
def staleRefreshConnection : QBOConnection :=
  { id := "c1", realmId := "realm-1", accessToken := "tokA", refreshToken := "tokR",
    expiresAt := 2000, refreshExpiresAt := 500, isConnected := true,
    companyName := "Co", connectedAt := 0, disconnectedAt := none }

/-- A store holding only `staleRefreshConnection`. -/
def staleRefreshDB : DB :=
  { invoices := [], payments := [], connections := [staleRefreshConnection],
    syncLogs := [], nextLogId := 0, nextConnNum := 0 }

/-- C4 counterexample: at `now = 1000` the connection's `refreshExpiresAt`
(500) lies in the past, yet `getValidAccessToken` succeeds with the stored
access token, leaves the store untouched and the connected flag `true` —
it returns no `AuthExpired`-classified error and flips nothing. -/
theorem getValidAccessToken_ignores_refresh_expiry :
    getValidAccessToken "c1" (TokenEndpointOutcome.networkFailure "unreachable") 1000
        staleRefreshDB = Except.ok ("tokA", staleRefreshDB) ∧
    staleRefreshConnection.refreshExpiresAt < 1000 ∧
    staleRefreshConnection.isConnected = true := by
  refine ⟨?_, by decide, rfl⟩
  rfl

/-- C4 as amended: `getValidAccessToken` never consults `refreshExpiresAt` —
while the access token is unexpired it returns it unchanged even when the
refresh credential has lapsed; the `connected=false` / `disconnectedAt=now`
transition on a lapsed refresh credential is performed by
`qboTokenRefreshMiddleware`, which disconnects the connection and continues
without raising a typed error. -/
theorem refresh_expiry_disconnect_is_middleware_behavior
    (realmId : String) (conn : QBOConnection) (env : TokenEndpointOutcome)
    (now : Nat) (db : DB)
    (hfind : db.connections.find? (fun c => c.realmId = realmId) = some conn)
    (htokA : conn.accessToken ≠ "") (htokR : conn.refreshToken ≠ "")
    (hconn : conn.isConnected = true) (hexp : conn.refreshExpiresAt ≤ now) :
    (qboTokenRefreshMiddleware (some realmId) env now db).db.connections =
      db.connections.map (fun c =>
        if c.id = conn.id then { c with isConnected := false, disconnectedAt := some now }
        else c) ∧
    (qboTokenRefreshMiddleware (some realmId) env now db).authHeader = none ∧
    (∀ (connectionId : String) (conn2 : QBOConnection),
      connectionId ≠ "" →
      db.connections.find? (fun c => c.id = connectionId && c.isConnected) = some conn2 →
      now < conn2.expiresAt →
      getValidAccessToken connectionId env now db = Except.ok (conn2.accessToken, db)) := by
  refine ⟨?_, ?_, ?_⟩
  · unfold qboTokenRefreshMiddleware
    dsimp only
    rw [hfind]
    dsimp only
    rw [if_neg (by simp [htokA, htokR]), hconn]
    simp only [Bool.not_true, Bool.false_eq_true, if_false]
    rw [if_pos hexp]
  · unfold qboTokenRefreshMiddleware
    dsimp only
    rw [hfind]
    dsimp only
    rw [if_neg (by simp [htokA, htokR]), hconn]
    simp only [Bool.not_true, Bool.false_eq_true, if_false]
    rw [if_pos hexp]
  · intro connectionId conn2 hid hfind2 hlive
    unfold getValidAccessToken validateConnectionId
    rw [if_neg hid]
    dsimp only
    rw [hfind2]
    dsimp only
    have : decide (conn2.expiresAt ≤ now) = false := by
      simp [Nat.not_le.mpr hlive]
    rw [this]
    rfl

/-- Witness for the amended C4 at the concrete stale connection: the
middleware disconnects it, and a direct `getValidAccessToken` call returns
the stored token. -/
theorem refresh_expiry_disconnect_is_middleware_behavior_witness :
    (qboTokenRefreshMiddleware (some "realm-1")
        (TokenEndpointOutcome.networkFailure "unreachable") 1000 staleRefreshDB).db.connections =
      staleRefreshDB.connections.map (fun c =>
        if c.id = staleRefreshConnection.id then
          { c with isConnected := false, disconnectedAt := some 1000 }
        else c) ∧
    getValidAccessToken "c1" (TokenEndpointOutcome.networkFailure "unreachable") 1000
        staleRefreshDB = Except.ok ("tokA", staleRefreshDB) := by
  have h := refresh_expiry_disconnect_is_middleware_behavior "realm-1" staleRefreshConnection
    (TokenEndpointOutcome.networkFailure "unreachable") 1000 staleRefreshDB
    rfl (by decide) (by decide) rfl (by decide)
  exact ⟨h.1, h.2.2 "c1" staleRefreshConnection (by decide) rfl (by decide)⟩

/-- A token response that carries no refresh lifetime in either field. -/
def respNoRefreshLifetime : QBOTokenRefreshResponse :=
  { access_token := "newA", refresh_token := "newR", expires_in := 3600,
    refresh_token_expires_in := none, x_refresh_token_expires_in := none }

/-- Witness for C7 at a concrete connection and response. -/
theorem refresh_fallback_100_days_witness :
    ∃ updated db',
      refreshTokenService "c1" (TokenEndpointOutcome.ok respNoRefreshLifetime) 1000
          staleRefreshDB = Except.ok (updated, db') ∧
      updated.refreshExpiresAt = 1000 + REFRESH_TOKEN_LIFETIME_SECONDS * 1000 ∧
      updated.accessToken = "newA" ∧
      updated.refreshToken = "newR" ∧
      db'.connections = staleRefreshDB.connections.map
        (fun c => if c.id = "c1" then updated else c) :=
  refresh_fallback_100_days "c1" respNoRefreshLifetime 1000 staleRefreshDB
    staleRefreshConnection (by decide) rfl rfl rfl rfl

/-- An invoice already carrying a remote id. -/
def syncedInvoice : Invoice :=
  { id := "inv-s", docNumber := "INV-9", customerId := "42",
    qboConnectionId := "conn-0", qboInvoiceId := some "qbo-77", syncToken := some "0",
    syncStatus := SyncStatus.SUCCESS, lastSyncedAt := some 5, total := 50,
    lineItems := [salesLine "item-1" "X" 50], createdAt := 0 }

/-- A payment already carrying a remote id. -/
def syncedPayment : Payment :=
  { id := "pay-s", referenceNumber := some "REF-1", invoiceId := some "inv-s",
    qboConnectionId := "conn-0", qboPaymentId := some "qbo-88", qboInvoiceId := none,
    syncToken := none, syncStatus := SyncStatus.SUCCESS, lastSyncedAt := some 5,
    amount := 50, totalAmount := some 50, depositToAccountRef := none,
    paymentDate := none, notes := none, linkedTransactions := none,
    unappliedAmount := none, createdAt := 0 }

/-- A store holding one already-synced invoice and one already-synced
payment. -/
def dbWithSynced : DB :=
  { invoices := [syncedInvoice], payments := [syncedPayment], connections := [],
    syncLogs := [], nextLogId := 0, nextConnNum := 0 }

/-- Witness for C1 at the concrete already-synced entities. -/
theorem syncOne_already_synced_guard_witness :
    (syncInvoiceToQBO "inv-s" "tok" "realm" QBOInvoiceApiOutcome.noEntity 7 true
        dbWithSynced).1.error = some "ALREADY_SYNCED" ∧
    (syncInvoiceToQBO "inv-s" "tok" "realm" QBOInvoiceApiOutcome.noEntity 7 true
        dbWithSynced).2.invoices = dbWithSynced.invoices ∧
    (syncPaymentToQBO "pay-s" "tok" "realm" QBOPaymentApiOutcome.noEntity 7 true
        dbWithSynced).1.error = some "ALREADY_SYNCED" ∧
    (syncPaymentToQBO "pay-s" "tok" "realm" QBOPaymentApiOutcome.noEntity 7 true
        dbWithSynced).2.syncLogs = dbWithSynced.syncLogs := by
  have h := syncOne_already_synced_guard "tok" "realm" 7 true dbWithSynced
  have hi := h.1 "inv-s" "qbo-77" syncedInvoice QBOInvoiceApiOutcome.noEntity rfl rfl
  have hp := h.2 "pay-s" "qbo-88" syncedPayment QBOPaymentApiOutcome.noEntity rfl rfl
  exact ⟨hi.2.1, hi.2.2.1, hp.2.1, hp.2.2.2.2⟩

theorem handleInvoiceSyncError_result (invoiceId accessToken realmId : String)
    (e : ThrownError) (now : Nat) (auditOk : Bool) (db : DB) :
    (handleInvoiceSyncError invoiceId accessToken realmId e now auditOk db).1 =
      { success := false, qboInvoiceId := none, syncToken := none,
        message := "Failed to sync invoice: " ++ classifyErrorMessage e,
        error := some (classifyErrorMessage e) } := by
  unfold handleInvoiceSyncError
  dsimp only
  cases lookupInvoice db invoiceId <;> rfl

theorem handlePaymentSyncError_result (paymentId accessToken realmId : String)
    (e : ThrownError) (now : Nat) (auditOk : Bool) (db : DB) :
    (handlePaymentSyncError paymentId accessToken realmId e now auditOk db).1 =
      { success := false, qboPaymentId := none, syncToken := none,
        message := "Failed to sync payment: " ++ classifyErrorMessage e,
        error := some (classifyErrorMessage e) } := by
  unfold handlePaymentSyncError
  dsimp only
  cases lookupPayment db paymentId <;> rfl

theorem syncInvoiceToQBO_failure_result
    (invoiceId accessToken realmId : String) (rem : QBOInvoiceApiOutcome)
    (now : Nat) (auditOk : Bool) (db : DB)
    (h : (∀ qid st, rem ≠ QBOInvoiceApiOutcome.ok qid st) ∨
      lookupInvoice db invoiceId = none) :
    (syncInvoiceToQBO invoiceId accessToken realmId rem now auditOk db).1.success = false := by
  unfold syncInvoiceToQBO syncInvoiceBody
  dsimp only
  cases hv : lookupInvoice (findOrCreateConnection realmId accessToken now db).2 invoiceId with
  | none =>
    rw [handleInvoiceSyncError_result]
  | some inv =>
    dsimp only
    cases hq : strTruthy inv.qboInvoiceId with
    | some q => rfl
    | none =>
      rcases h with h | h
      · cases rem with
        | ok qid st => exact absurd rfl (h qid st)
        | axiosFailure m s fa => rw [handleInvoiceSyncError_result]
        | faultBody c d => rw [handleInvoiceSyncError_result]
        | noEntity => rw [handleInvoiceSyncError_result]
      · rw [lookupInvoice_congr (findOrCreateConnection_invoices realmId accessToken now db)
          invoiceId, h] at hv
        cases hv

theorem syncPaymentToQBO_failure_result
    (paymentId accessToken realmId : String) (rem : QBOPaymentApiOutcome)
    (now : Nat) (auditOk : Bool) (db : DB)
    (h : (∀ qid st ua, rem ≠ QBOPaymentApiOutcome.ok qid st ua) ∨
      lookupPayment db paymentId = none) :
    (syncPaymentToQBO paymentId accessToken realmId rem now auditOk db).1.success = false := by
  unfold syncPaymentToQBO syncPaymentBody
  dsimp only
  cases hv : lookupPayment (findOrCreateConnection realmId accessToken now db).2 paymentId with
  | none =>
    rw [handlePaymentSyncError_result]
  | some p =>
    dsimp only
    cases hq : strTruthy p.qboPaymentId with
    | some q => rfl
    | none =>
      rcases h with h | h
      · cases rem with
        | ok qid st ua => exact absurd rfl (h qid st ua)
        | axiosFailure m s fa => rw [handlePaymentSyncError_result]
        | faultBody c d => rw [handlePaymentSyncError_result]
        | noEntity => rw [handlePaymentSyncError_result]
      · rw [lookupPayment_congr (findOrCreateConnection_payments realmId accessToken now db)
          paymentId, h] at hv
        cases hv

/-- C5: every failing single-record sync — remote fault body, HTTP/network
(axios) error, missing response entity, or missing local entity — comes back
to the caller as a `success := false` result object rather than an exception,
and accordingly the set of items a batch run attempts (its per-item result
ids) is the pending candidate list, identical under any per-item outcome
environment. -/
theorem syncOne_failures_converted_to_results
    (accessToken realmId : String) (now : Nat) (db : DB) :
    (∀ (invoiceId : String) (rem : QBOInvoiceApiOutcome) (auditOk : Bool),
      ((∀ qid st, rem ≠ QBOInvoiceApiOutcome.ok qid st) ∨
        lookupInvoice db invoiceId = none) →
      (syncInvoiceToQBO invoiceId accessToken realmId rem now auditOk db).1.success = false) ∧
    (∀ (paymentId : String) (rem : QBOPaymentApiOutcome) (auditOk : Bool),
      ((∀ qid st ua, rem ≠ QBOPaymentApiOutcome.ok qid st ua) ∨
        lookupPayment db paymentId = none) →
      (syncPaymentToQBO paymentId accessToken realmId rem now auditOk db).1.success = false) ∧
    (∀ (envI envI' : String → QBOInvoiceApiOutcome) (auditOk auditOk' : Bool),
      (syncAllInvoicesToQBO accessToken realmId envI now auditOk db).1.results.map
          (fun r => r.invoiceId) =
        (syncAllInvoicesToQBO accessToken realmId envI' now auditOk' db).1.results.map
          (fun r => r.invoiceId)) ∧
    (∀ (envP envP' : String → QBOPaymentApiOutcome) (auditOk auditOk' : Bool),
      (syncAllPaymentsToQBO accessToken realmId envP now auditOk db).1.results.map
          (fun r => r.paymentId) =
        (syncAllPaymentsToQBO accessToken realmId envP' now auditOk' db).1.results.map
          (fun r => r.paymentId)) := by
  refine ⟨?_, ?_, ?_, ?_⟩
  · intro invoiceId rem auditOk h
    exact syncInvoiceToQBO_failure_result invoiceId accessToken realmId rem now auditOk db h
  · intro paymentId rem auditOk h
    exact syncPaymentToQBO_failure_result paymentId accessToken realmId rem now auditOk db h
  · intro envI envI' auditOk auditOk'
    rw [(syncAllInvoices_spec accessToken realmId envI now auditOk db).2.2.1,
      (syncAllInvoices_spec accessToken realmId envI' now auditOk' db).2.2.1]
  · intro envP envP' auditOk auditOk'
    rw [(syncAllPayments_spec accessToken realmId envP now auditOk db).2.2.1,
      (syncAllPayments_spec accessToken realmId envP' now auditOk' db).2.2.1]

/-- A pending, not-yet-synced invoice. -/
def pendingInvoice : Invoice :=
  { id := "inv-p", docNumber := "INV-3", customerId := "42",
    qboConnectionId := "conn-0", qboInvoiceId := none, syncToken := none,
    syncStatus := SyncStatus.PENDING, lastSyncedAt := none, total := 100,
    lineItems := [salesLine "item-1" "Design" 80, salesLine "item-2" "Dev" 20],
    createdAt := 1 }

/-- A store holding one pending invoice. -/
def dbWithPending : DB :=
  { invoices := [pendingInvoice], payments := [], connections := [], syncLogs := [],
    nextLogId := 0, nextConnNum := 0 }

/-- Witness for C5: a concrete network failure comes back as a
`success := false` result. -/
theorem syncOne_failures_converted_to_results_witness :
    (syncInvoiceToQBO "inv-p" "tok" "realm"
      (QBOInvoiceApiOutcome.axiosFailure "Network Error" none none) 5 true
      dbWithPending).1.success = false :=
  (syncOne_failures_converted_to_results "tok" "realm" 5 dbWithPending).1 "inv-p"
    (QBOInvoiceApiOutcome.axiosFailure "Network Error" none none) true
    (Or.inl (fun _ _ h => QBOInvoiceApiOutcome.noConfusion h))

theorem logKeyMatches_congr (r : SyncLogRow) {d1 d2 : CreateSyncLogData}
    (h1 : d1.transactionType = d2.transactionType)
    (h2 : d1.systemTransactionId = d2.systemTransactionId)
    (h3 : d1.operation = d2.operation)
    (h4 : d1.qboConnectionId = d2.qboConnectionId) :
    logKeyMatches r d1 = logKeyMatches r d2 := by
  unfold logKeyMatches
  rw [h1, h2, h3, h4]

theorem upsertSyncLogRows_no_match (d : CreateSyncLogData) (now newId : Nat)
    (l : List SyncLogRow) (h : ∀ r ∈ l, logKeyMatches r d = false) :
    upsertSyncLogRows d now newId l = l ++ [newSyncLogRow d now newId] := by
  induction l with
  | nil => rfl
  | cons r rest ih =>
    have hr := h r (List.mem_cons_self r rest)
    have hrest := fun x hx => h x (List.mem_cons_of_mem r hx)
    simp only [upsertSyncLogRows, hr, Bool.false_eq_true, if_false, List.cons_append,
      ih hrest]

theorem upsertSyncLogRows_match_at_end (d : CreateSyncLogData) (now newId : Nat)
    (l : List SyncLogRow) (row : SyncLogRow)
    (h : ∀ r ∈ l, logKeyMatches r d = false) (hm : logKeyMatches row d = true) :
    upsertSyncLogRows d now newId (l ++ [row]) = l ++ [applySyncLogUpdate d now row] := by
  induction l with
  | nil => simp only [List.nil_append, upsertSyncLogRows, hm, if_true]
  | cons r rest ih =>
    have hr := h r (List.mem_cons_self r rest)
    have hrest := fun x hx => h x (List.mem_cons_of_mem r hx)
    simp only [List.cons_append, upsertSyncLogRows, hr, Bool.false_eq_true, if_false]
    exact congrArg (fun t => r :: t) (ih hrest)

theorem find?_append_singleton {α : Type} (p : α → Bool) (l : List α) (x : α)
    (h : ∀ r ∈ l, p r = false) (hx : p x = true) :
    (l ++ [x]).find? p = some x := by
  induction l with
  | nil => simp [List.find?, hx]
  | cons r rest ih =>
    have hr := h r (List.mem_cons_self r rest)
    have hrest := fun y hy => h y (List.mem_cons_of_mem r hy)
    simp [List.find?, hr, ih hrest]

/-- C8: `createSyncLog` upserts by the composite key — starting from a store
with no row of the key, a first attempt inserts one row with
`startedAt = now`, and a second attempt on the same key updates that row in
place, leaving exactly one row of the key (and a store one row larger than
before the first attempt) whose status is the second attempt's; each write
assigns a fresh `completedAt` exactly when the status it writes is not
`IN_PROGRESS`. -/
theorem audit_log_upsert_latest_attempt
    (d1 d2 : CreateSyncLogData) (now1 now2 : Nat) (db : DB)
    (h1 : d1.transactionType = d2.transactionType)
    (h2 : d1.systemTransactionId = d2.systemTransactionId)
    (h3 : d1.operation = d2.operation)
    (h4 : d1.qboConnectionId = d2.qboConnectionId)
    (hfresh : db.syncLogs.countP (fun r => logKeyMatches r d1) = 0) :
    (createSyncLog d1 now1 true db).syncLogs.length = db.syncLogs.length + 1 ∧
    (createSyncLog d2 now2 true (createSyncLog d1 now1 true db)).syncLogs.length =
      db.syncLogs.length + 1 ∧
    (createSyncLog d2 now2 true (createSyncLog d1 now1 true db)).syncLogs.countP
      (fun r => logKeyMatches r d2) = 1 ∧
    (createSyncLog d2 now2 true (createSyncLog d1 now1 true db)).syncLogs.find?
        (fun r => logKeyMatches r d2) =
      some (applySyncLogUpdate d2 now2 (newSyncLogRow d1 now1 db.nextLogId)) ∧
    (applySyncLogUpdate d2 now2 (newSyncLogRow d1 now1 db.nextLogId)).status = d2.status ∧
    (applySyncLogUpdate d2 now2 (newSyncLogRow d1 now1 db.nextLogId)).startedAt = now1 ∧
    (applySyncLogUpdate d2 now2 (newSyncLogRow d1 now1 db.nextLogId)).completedAt =
      (if d2.status ≠ SyncStatus.IN_PROGRESS then some now2
       else if d1.status ≠ SyncStatus.IN_PROGRESS then some now1 else none) ∧
    (newSyncLogRow d1 now1 db.nextLogId).startedAt = now1 ∧
    (newSyncLogRow d1 now1 db.nextLogId).completedAt =
      (if d1.status ≠ SyncStatus.IN_PROGRESS then some now1 else none) := by
  have hnomatch1 : ∀ r ∈ db.syncLogs, logKeyMatches r d1 = false := by
    intro r hr
    have := List.countP_eq_zero.mp hfresh r hr
    simpa using this
  have hnomatch2 : ∀ r ∈ db.syncLogs, logKeyMatches r d2 = false := by
    intro r hr
    rw [← logKeyMatches_congr r h1 h2 h3 h4]
    exact hnomatch1 r hr
  have hnoany1 : db.syncLogs.any (fun r => logKeyMatches r d1) = false := by
    rw [List.any_eq_false]
    intro r hr
    simp [hnomatch1 r hr]
  have hnewmatch : logKeyMatches (newSyncLogRow d1 now1 db.nextLogId) d2 = true := by
    simp [logKeyMatches, newSyncLogRow, h1, h2, h3, h4]
  have hlogs : ∀ (d : CreateSyncLogData) (n : Nat) (x : DB),
      (createSyncLog d n true x).syncLogs = upsertSyncLogRows d n x.nextLogId x.syncLogs := by
    intro d n x
    unfold createSyncLog
    rw [if_pos rfl]
  have hdb1 : (createSyncLog d1 now1 true db).syncLogs =
      db.syncLogs ++ [newSyncLogRow d1 now1 db.nextLogId] := by
    rw [hlogs]
    exact upsertSyncLogRows_no_match d1 now1 db.nextLogId db.syncLogs hnomatch1
  have hupm : logKeyMatches (applySyncLogUpdate d2 now2 (newSyncLogRow d1 now1 db.nextLogId))
      d2 = true := hnewmatch
  have hdb2 : (createSyncLog d2 now2 true (createSyncLog d1 now1 true db)).syncLogs =
      db.syncLogs ++ [applySyncLogUpdate d2 now2 (newSyncLogRow d1 now1 db.nextLogId)] := by
    rw [hlogs, hdb1]
    exact upsertSyncLogRows_match_at_end d2 now2 _ db.syncLogs _ hnomatch2 hnewmatch
  refine ⟨?_, ?_, ?_, ?_, rfl, rfl, rfl, rfl, rfl⟩
  · rw [hdb1]
    simp
  · rw [hdb2]
    simp
  · rw [hdb2, List.countP_append]
    have hz : db.syncLogs.countP (fun r => logKeyMatches r d2) = 0 := by
      rw [List.countP_eq_zero]
      intro r hr
      simp [hnomatch2 r hr]
    rw [hz]
    simp [List.countP_cons, hupm]
  · rw [hdb2]
    exact find?_append_singleton _ db.syncLogs _ hnomatch2 hupm

/-- A first-attempt `IN_PROGRESS` audit write. -/
def logDataInProgress : CreateSyncLogData :=
  { transactionType := TransactionType.INVOICE, systemTransactionId := "inv-p",
    quickbooksId := none, status := SyncStatus.IN_PROGRESS,
    operation := SyncOperation.CREATE, qboConnectionId := "conn-0",
    invoiceId := some "inv-p", paymentId := none, requestPayload := none,
    responsePayload := none, errorMessage := none, errorCode := none }

/-- A second-attempt `FAILED` audit write on the same key, carrying a remote
fault. -/
def logDataFailed : CreateSyncLogData :=
  { transactionType := TransactionType.INVOICE, systemTransactionId := "inv-p",
    quickbooksId := none, status := SyncStatus.FAILED,
    operation := SyncOperation.CREATE, qboConnectionId := "conn-0",
    invoiceId := some "inv-p", paymentId := none, requestPayload := none,
    responsePayload := some (LogPayload.errorResp (some 400)
      (some ("6240", "Invalid Customer Reference"))),
    errorMessage := some "QuickBooks API Error: Invalid Customer Reference (Code: 6240)",
    errorCode := some "6240" }

/-- Witness for C8 at two concrete consecutive writes on the same key over an
empty store. -/
theorem audit_log_upsert_latest_attempt_witness :
    (createSyncLog logDataFailed 20 true
        (createSyncLog logDataInProgress 10 true emptyDB)).syncLogs.countP
      (fun r => logKeyMatches r logDataFailed) = 1 ∧
    (applySyncLogUpdate logDataFailed 20
      (newSyncLogRow logDataInProgress 10 emptyDB.nextLogId)).status = SyncStatus.FAILED ∧
    (applySyncLogUpdate logDataFailed 20
      (newSyncLogRow logDataInProgress 10 emptyDB.nextLogId)).completedAt = some 20 := by
  obtain ⟨hA, hB, hC, hD, hE, hF, hG, hH, hI⟩ :=
    audit_log_upsert_latest_attempt logDataInProgress logDataFailed 10 20 emptyDB
      rfl rfl rfl rfl rfl
  refine ⟨hC, hE, ?_⟩
  rw [hG]
  decide

end QBOSync
